import Mathlib

/-!
# Tyche: driver session layer and trusted runtime gate

A shallow embedding of

* `C/drivers/tyche/src/ioctl.c` (`tyche_register`, `tyche_unregister`, `tyche_open`,
  `tyche_close`, `tyche_ioctl`, `tyche_mmap`),
* `C/libraries/sdktyche/runtime/lib.c` and
  `C/libraries/tyche-trusted-runtime/runtime/lib.c` (`trusted_main`, `gate_call`), and
* `C/libraries/sdktyche/example/enclave_rot_riscv/untrusted/main.c`
  (`find_default_shared`).

The functions of the driver call collaborators that live in other translation
units (`create_enclave`, `copy_from_user`, ...).  They are taken as arbitrary
functions over an arbitrary world state `σ`: each receives its arguments and the
current world and returns its C return value, the new contents of every object it
was handed a pointer to, and the new world.  Every call made by the embedded code
is recorded, in program order, in a trace of events, so that statements such as
"`commit_enclave` is not invoked" are statements about that trace.

Pointers (`struct file*`, `void*`, user addresses) are natural numbers, `NULL`
being `0`.  C `int`/`long` results are integers; `unsigned long`/`usize` values are
natural numbers.
-/

namespace Tyche

/-! ## Payload structures of the device-control interface

`tyche_enclave.h` declares them; the field names are the ones `tyche_ioctl` reads.
`msg_enclave_info_t` is initialised with two values in `tyche_ioctl`, of which the
code names only `physoffset`. -/

/-- Payload of `TYCHE_ENCLAVE_GET_PHYSOFFSET`. -/
structure msg_enclave_info_t where
  virtaddr : Nat
  physoffset : Nat
deriving DecidableEq, Repr

/-- Payload of `TYCHE_ENCLAVE_COMMIT`. -/
structure msg_enclave_commit_t where
  page_tables : Nat
  entry : Nat
  stack : Nat
deriving DecidableEq, Repr

/-- Payload of `TYCHE_ENCLAVE_MPROTECT`. -/
structure msg_enclave_mprotect_t where
  start : Nat
  size : Nat
  flags : Nat
  tpe : Nat
deriving DecidableEq, Repr

/-- Payload of `TYCHE_TRANSITION`. -/
structure msg_enclave_switch_t where
  args : Nat
deriving DecidableEq, Repr

/-- The four payload structures, as tags. -/
inductive MsgKind where
  | info
  | commit
  | mprotect
  | transition
deriving DecidableEq, Repr

/-- The payload structure a tag stands for. -/
@[reducible]
def MsgKind.struct : MsgKind → Type
  | .info => msg_enclave_info_t
  | .commit => msg_enclave_commit_t
  | .mprotect => msg_enclave_mprotect_t
  | .transition => msg_enclave_switch_t

/-- Constants of `common.h` and `tyche_enclave.h` that the driver uses.  Their
values are not fixed here: every statement below is for all values (request codes
being pairwise distinct where a statement needs it, as the labels of a C `switch`
must be). -/
structure Consts where
  SUCCESS : Int
  FAILURE : Int
  UNINIT_USIZE : Nat
  TYCHE_ENCLAVE_GET_PHYSOFFSET : Nat
  TYCHE_ENCLAVE_COMMIT : Nat
  TYCHE_ENCLAVE_MPROTECT : Nat
  TYCHE_TRANSITION : Nat
  sizeof : MsgKind → Nat

/-- The case labels of the `switch` in `tyche_ioctl` are pairwise distinct. -/
def Consts.labelsDistinct (c : Consts) : Prop :=
  [c.TYCHE_ENCLAVE_GET_PHYSOFFSET, c.TYCHE_ENCLAVE_COMMIT,
    c.TYCHE_ENCLAVE_MPROTECT, c.TYCHE_TRANSITION].Nodup

instance (c : Consts) : Decidable c.labelsDistinct := by
  unfold Consts.labelsDistinct; infer_instance

/-- The collaborators of the driver, over a world state `σ`.  A function that is
handed a pointer to a kernel object receives the object's current contents and
returns its new contents. -/
structure Kernel (σ : Type) where
  /-- `int create_enclave(struct file* handle)`. -/
  create_enclave : Nat → σ → Int × σ
  /-- `int delete_enclave(struct file* handle)`. -/
  delete_enclave : Nat → σ → Int × σ
  /-- `int get_physoffset_enclave(handle, usize* physoffset)`. -/
  get_physoffset_enclave : Nat → Nat → σ → Int × Nat × σ
  /-- `int commit_enclave(handle, page_tables, entry, stack)`. -/
  commit_enclave : Nat → Nat → Nat → Nat → σ → Int × σ
  /-- `int mprotect_enclave(handle, start, size, flags, tpe)`. -/
  mprotect_enclave : Nat → Nat → Nat → Nat → Nat → σ → Int × σ
  /-- `int switch_enclave(handle, args)`. -/
  switch_enclave : Nat → Nat → σ → Int × σ
  /-- `int mmap_segment(struct file* file, struct vm_area_struct* vma)`. -/
  mmap_segment : Nat → Nat → σ → Int × σ
  /-- `copy_to_user(to, from, n)` for a `msg_enclave_info_t`; the result is the
  number of bytes that could not be copied. -/
  copy_to_user : Nat → msg_enclave_info_t → Nat → σ → Nat × σ
  /-- `copy_from_user(to, from, n)`: receives the destination structure and
  returns the number of bytes that could not be copied and the destination's new
  contents. -/
  copy_from_user : (k : MsgKind) → k.struct → Nat → Nat → σ → Nat × k.struct × σ

/-- One observable step of a driver entry point: a call of a collaborator, with
its arguments and its return value, or a message given to the `ERROR` macro. -/
inductive Event where
  | create_enclave (handle : Nat) (ret : Int)
  | delete_enclave (handle : Nat) (ret : Int)
  | get_physoffset_enclave (handle : Nat) (ret : Int)
  | commit_enclave (handle page_tables entry stack : Nat) (ret : Int)
  | mprotect_enclave (handle start size flags tpe : Nat) (ret : Int)
  | switch_enclave (handle args : Nat) (ret : Int)
  | mmap_segment (file vma : Nat) (ret : Int)
  | copy_to_user (dst : Nat) (src : msg_enclave_info_t) (n : Nat) (ret : Nat)
  | copy_from_user (k : MsgKind) (src : Nat) (n : Nat) (ret : Nat)
  | ERROR (fmt : String) (args : List Nat)
deriving DecidableEq, Repr

/-- Calls of `commit_enclave`, `mprotect_enclave`, `switch_enclave` and
`get_physoffset_enclave`: the enclave operations `tyche_ioctl` dispatches to. -/
def Event.isEnclaveOp : Event → Bool
  | .get_physoffset_enclave _ _ => true
  | .commit_enclave _ _ _ _ _ => true
  | .mprotect_enclave _ _ _ _ _ _ => true
  | .switch_enclave _ _ _ => true
  | _ => false

/-- Calls of any function of `enclaves.h`. -/
def Event.isEnclaveCall : Event → Bool
  | .create_enclave _ _ => true
  | .delete_enclave _ _ => true
  | .mmap_segment _ _ _ => true
  | e => e.isEnclaveOp

/-- Calls of `copy_to_user`. -/
def Event.isCopyToUser : Event → Bool
  | .copy_to_user _ _ _ _ => true
  | _ => false

/-- Calls of `copy_from_user`. -/
def Event.isCopyFromUser : Event → Bool
  | .copy_from_user _ _ _ _ => true
  | _ => false

/-- Calls of `create_enclave`. -/
def Event.isCreate : Event → Bool
  | .create_enclave _ _ => true
  | _ => false

/-- Calls of `delete_enclave`. -/
def Event.isDelete : Event → Bool
  | .delete_enclave _ _ => true
  | _ => false

/-- What an entry point of the driver leaves behind: its return value, the calls
it made, and the world after them. -/
structure Out (σ : Type) where
  ret : Int
  trace : List Event
  state : σ

variable {σ : Type}

/-- `int tyche_open(struct inode* inode, struct file* file)`. -/
def tyche_open (c : Consts) (k : Kernel σ) (_inode file : Nat) (s : σ) : Out σ :=
  if file = 0 then
    ⟨c.FAILURE, [.ERROR "We received a Null file descriptor." []], s⟩
  else
    let r := k.create_enclave file s
    if r.1 ≠ c.SUCCESS then
      ⟨c.FAILURE, [.create_enclave file r.1, .ERROR "Unable to create a new enclave" []], r.2⟩
    else
      ⟨c.SUCCESS, [.create_enclave file r.1], r.2⟩

/-- `int tyche_close(struct inode* inode, struct file* handle)`. -/
def tyche_close (c : Consts) (k : Kernel σ) (_inode handle : Nat) (s : σ) : Out σ :=
  let r := k.delete_enclave handle s
  if r.1 ≠ c.SUCCESS then
    ⟨c.FAILURE, [.delete_enclave handle r.1, .ERROR "Unable to delete the enclave %p" [handle]], r.2⟩
  else
    ⟨c.SUCCESS, [.delete_enclave handle r.1], r.2⟩

/-- `long tyche_ioctl(struct file* handle, unsigned int cmd, unsigned long arg)`.
The `switch` is the chain of comparisons of `cmd` with the case labels. -/
def tyche_ioctl (c : Consts) (k : Kernel σ) (handle cmd arg : Nat) (s : σ) : Out σ :=
  let info : msg_enclave_info_t := ⟨c.UNINIT_USIZE, c.UNINIT_USIZE⟩
  let commit : msg_enclave_commit_t := ⟨0, 0, 0⟩
  let mprotect : msg_enclave_mprotect_t := ⟨0, 0, 0, 0⟩
  let transition : msg_enclave_switch_t := ⟨0⟩
  if cmd = c.TYCHE_ENCLAVE_GET_PHYSOFFSET then
    let g := k.get_physoffset_enclave handle info.physoffset s
    let info : msg_enclave_info_t := { info with physoffset := g.2.1 }
    if g.1 ≠ c.SUCCESS then
      ⟨c.FAILURE, [.get_physoffset_enclave handle g.1,
        .ERROR "Unable to get the physoffset for enclave %p" [handle]], g.2.2⟩
    else
      let u := k.copy_to_user arg info (c.sizeof .info) g.2.2
      if u.1 ≠ 0 then
        ⟨c.FAILURE, [.get_physoffset_enclave handle g.1,
          .copy_to_user arg info (c.sizeof .info) u.1,
          .ERROR "Unable to copy enclave physoffset for %p" [handle]], u.2⟩
      else
        ⟨c.SUCCESS, [.get_physoffset_enclave handle g.1,
          .copy_to_user arg info (c.sizeof .info) u.1], u.2⟩
  else if cmd = c.TYCHE_ENCLAVE_COMMIT then
    let u := k.copy_from_user .commit commit arg (c.sizeof .commit) s
    let commit : msg_enclave_commit_t := u.2.1
    if u.1 ≠ 0 then
      ⟨c.FAILURE, [.copy_from_user .commit arg (c.sizeof .commit) u.1,
        .ERROR "Unable to copy commit arguments from user." []], u.2.2⟩
    else
      let r := k.commit_enclave handle commit.page_tables commit.entry commit.stack u.2.2
      if r.1 ≠ c.SUCCESS then
        ⟨c.FAILURE, [.copy_from_user .commit arg (c.sizeof .commit) u.1,
          .commit_enclave handle commit.page_tables commit.entry commit.stack r.1,
          .ERROR "Commit failed for enclave %p" [handle]], r.2⟩
      else
        ⟨c.SUCCESS, [.copy_from_user .commit arg (c.sizeof .commit) u.1,
          .commit_enclave handle commit.page_tables commit.entry commit.stack r.1], r.2⟩
  else if cmd = c.TYCHE_ENCLAVE_MPROTECT then
    let u := k.copy_from_user .mprotect mprotect arg (c.sizeof .mprotect) s
    let mprotect : msg_enclave_mprotect_t := u.2.1
    if u.1 ≠ 0 then
      ⟨c.FAILURE, [.copy_from_user .mprotect arg (c.sizeof .mprotect) u.1,
        .ERROR "Unable to copy arguments from user." []], u.2.2⟩
    else
      let r := k.mprotect_enclave handle mprotect.start mprotect.size mprotect.flags
        mprotect.tpe u.2.2
      if r.1 ≠ c.SUCCESS then
        ⟨c.FAILURE, [.copy_from_user .mprotect arg (c.sizeof .mprotect) u.1,
          .mprotect_enclave handle mprotect.start mprotect.size mprotect.flags
            mprotect.tpe r.1,
          .ERROR "Unable to mprotect he region for enclave %p" [handle]], r.2⟩
      else
        ⟨c.SUCCESS, [.copy_from_user .mprotect arg (c.sizeof .mprotect) u.1,
          .mprotect_enclave handle mprotect.start mprotect.size mprotect.flags
            mprotect.tpe r.1], r.2⟩
  else if cmd = c.TYCHE_TRANSITION then
    let u := k.copy_from_user .transition transition arg (c.sizeof .transition) s
    let transition : msg_enclave_switch_t := u.2.1
    if u.1 ≠ 0 then
      ⟨c.FAILURE, [.copy_from_user .transition arg (c.sizeof .transition) u.1,
        .ERROR "Unable to copy arguments from user." []], u.2.2⟩
    else
      let r := k.switch_enclave handle transition.args u.2.2
      if r.1 ≠ c.SUCCESS then
        ⟨c.FAILURE, [.copy_from_user .transition arg (c.sizeof .transition) u.1,
          .switch_enclave handle transition.args r.1,
          .ERROR "Unable to switch to enclave %p" [handle]], r.2⟩
      else
        ⟨c.SUCCESS, [.copy_from_user .transition arg (c.sizeof .transition) u.1,
          .switch_enclave handle transition.args r.1], r.2⟩
  else
    ⟨c.FAILURE, [.ERROR "The command is not valid!" []], s⟩

/-- `int tyche_mmap(struct file* file, struct vm_area_struct* vma)`. -/
def tyche_mmap (k : Kernel σ) (file vma : Nat) (s : σ) : Out σ :=
  let r := k.mmap_segment file vma s
  ⟨r.1, [.mmap_segment file vma r.1], r.2⟩

/-! ## Concrete collaborators used to evaluate the definitions -/

/-- Constants for the examples: `SUCCESS = 0`, `FAILURE = -1`, four distinct
request codes, every structure sized as its number of 8-byte fields. -/
def exConsts : Consts where
  SUCCESS := 0
  FAILURE := -1
  UNINIT_USIZE := 2 ^ 64 - 1
  TYCHE_ENCLAVE_GET_PHYSOFFSET := 1
  TYCHE_ENCLAVE_COMMIT := 2
  TYCHE_ENCLAVE_MPROTECT := 3
  TYCHE_TRANSITION := 4
  sizeof := fun m => match m with
    | .info => 16
    | .commit => 24
    | .mprotect => 32
    | .transition => 8

/-- A kernel over the world `Nat` (a counter of the calls made) in which every
enclave function returns `ret`, every copy leaves `left` bytes uncopied,
`get_physoffset_enclave` writes `4096`, and `copy_from_user` fills each
structure with fixed, field-wise different values. -/
def exKernel (ret : Int) (left : Nat) : Kernel Nat where
  create_enclave := fun _ s => (ret, s + 1)
  delete_enclave := fun _ s => (ret, s + 1)
  get_physoffset_enclave := fun _ _ s => (ret, 4096, s + 1)
  commit_enclave := fun _ _ _ _ s => (ret, s + 1)
  mprotect_enclave := fun _ _ _ _ _ s => (ret, s + 1)
  switch_enclave := fun _ _ s => (ret, s + 1)
  mmap_segment := fun _ _ s => (ret, s + 1)
  copy_to_user := fun _ _ _ s => (left, s + 1)
  copy_from_user := fun m old _ _ s =>
    match m, old with
    | .info, _ => (left, ⟨11, 12⟩, s + 1)
    | .commit, _ => (left, ⟨21, 22, 23⟩, s + 1)
    | .mprotect, _ => (left, ⟨31, 32, 33, 34⟩, s + 1)
    | .transition, _ => (left, ⟨41⟩, s + 1)

/-! ## Trusted runtime gate -/

/-- Values of the enumeration `tyche_monitor_call_t` of `tyche_api.h`. -/
inductive tyche_monitor_call_t where
  | TYCHE_CREATE_DOMAIN
  | TYCHE_SEAL_DOMAIN
  | TYCHE_SHARE
  | TYCHE_SEND
  | TYCHE_SEGMENT_REGION
  | TYCHE_REVOKE
  | TYCHE_DUPLICATE
  | TYCHE_ENUMERATE
  | TYCHE_SWITCH
  | TYCHE_EXIT
  | TYCHE_SET_TRAPS
  | TYCHE_SET_CORES
deriving DecidableEq, Repr

/-- The number the enumeration gives each monitor call. -/
def tyche_monitor_call_t.val : tyche_monitor_call_t → Nat
  | .TYCHE_CREATE_DOMAIN => 1
  | .TYCHE_SEAL_DOMAIN => 2
  | .TYCHE_SHARE => 3
  | .TYCHE_SEND => 4
  | .TYCHE_SEGMENT_REGION => 5
  | .TYCHE_REVOKE => 6
  | .TYCHE_DUPLICATE => 7
  | .TYCHE_ENUMERATE => 8
  | .TYCHE_SWITCH => 9
  | .TYCHE_EXIT => 10
  | .TYCHE_SET_TRAPS => 12
  | .TYCHE_SET_CORES => 13

/-- The frame `trusted_main` builds: `frame_t frame = {ret_handle, args}`. -/
structure frame_t where
  ret_handle : Nat
  args : Nat
deriving DecidableEq, Repr

/-- What the preprocessor sees: `X86` is `defined(CONFIG_X86) || defined(__x86_64__)`,
`RISCV` is `defined(CONFIG_RISCV) || defined(__riscv)`. -/
structure BuildConfig where
  X86 : Bool
  RISCV : Bool
deriving DecidableEq, Repr

/-- The collaborators of the trusted runtime over a world `σ`.  Each may never hand
control back (`none`); each receives the objects it is given pointers to and returns
their new contents. -/
structure Runtime (σ : Type) where
  /-- `void trusted_entry(frame_t* frame)`, supplied by the domain. -/
  trusted_entry : frame_t → σ → Option (frame_t × σ)
  /-- `int asm_call_gate(capa_index_t* capa, void** args)`. -/
  asm_call_gate : Nat → Nat → σ → Option (Int × Nat × Nat × σ)
  /-- `int riscv_asm_call_gate(capa_index_t* capa, void** args)`. -/
  riscv_asm_call_gate : Nat → Nat → σ → Option (Int × Nat × Nat × σ)
  /-- `bricks_gate_call(frame_t* frame)` of `bricks.h`. -/
  bricks_gate_call : frame_t → σ → Option (Int × frame_t × σ)

/-- One observable step of the trusted runtime: a call, with the contents of the
objects its pointer arguments designate at the time of the call.  `tyche_call` is a
monitor call (`tyche_api.h`) with its `vmcall` number. -/
inductive GateEvent where
  | trusted_entry (frame : frame_t)
  | gate_call (frame : frame_t)
  | bricks_gate_call (frame : frame_t)
  | asm_call_gate (capa args : Nat)
  | riscv_asm_call_gate (capa args : Nat)
  | tyche_call (vmcall : Nat)
deriving DecidableEq, Repr

/-- Calls of the domain's entry logic. -/
def GateEvent.isEntry : GateEvent → Bool
  | .trusted_entry _ => true
  | _ => false

/-- Gate-return calls issued by `trusted_main`. -/
def GateEvent.isGateReturn : GateEvent → Bool
  | .gate_call _ => true
  | .bricks_gate_call _ => true
  | _ => false

/-- Monitor calls. -/
def GateEvent.isMonitorCall : GateEvent → Bool
  | .tyche_call _ => true
  | _ => false

/-- A run of runtime code: the calls made, and the value and world with which
control came back to the caller, if it did. -/
structure Run (α σ : Type) where
  trace : List GateEvent
  result : Option (α × σ)

/-- Conversion of an `int` to `usize` (64 bits). -/
def usize_of_int (r : Int) : Nat := (r % 2 ^ 64).toNat

/-- Conversion of a `usize` to `int` (32 bits, two's complement). -/
def int_of_usize (u : Nat) : Int :=
  if u % 2 ^ 32 < 2 ^ 31 then (u % 2 ^ 32 : Nat) else (u % 2 ^ 32 : Nat) - 2 ^ 32

namespace sdktyche

/-- `int gate_call(frame_t* frame)` of `sdktyche/runtime/lib.c`; returns the
result and the frame as the assembly gate left it. -/
def gate_call (c : Consts) (rt : Runtime σ) (cfg : BuildConfig) (frame : frame_t) (s : σ) :
    Run (Int × frame_t) σ :=
  let result : Nat := usize_of_int c.FAILURE
  if cfg.X86 then
    match rt.asm_call_gate frame.ret_handle frame.args s with
    | none => ⟨[.asm_call_gate frame.ret_handle frame.args], none⟩
    | some (r, h, a, s1) =>
      let result : Nat := usize_of_int r
      ⟨[.asm_call_gate frame.ret_handle frame.args], some ((int_of_usize result, ⟨h, a⟩), s1)⟩
  else if cfg.RISCV then
    match rt.riscv_asm_call_gate frame.ret_handle frame.args s with
    | none => ⟨[.riscv_asm_call_gate frame.ret_handle frame.args], none⟩
    | some (r, h, a, s1) =>
      let result : Nat := usize_of_int r
      ⟨[.riscv_asm_call_gate frame.ret_handle frame.args],
        some ((int_of_usize result, ⟨h, a⟩), s1)⟩
  else
    ⟨[], some ((int_of_usize result, frame), s)⟩

/-- `void trusted_main(capa_index_t ret_handle, void* args)` of
`sdktyche/runtime/lib.c`. -/
def trusted_main (c : Consts) (rt : Runtime σ) (cfg : BuildConfig) (ret_handle args : Nat)
    (s : σ) : Run Unit σ :=
  let frame : frame_t := ⟨ret_handle, args⟩
  match rt.trusted_entry frame s with
  | none => ⟨[.trusted_entry frame], none⟩
  | some (frame1, s1) =>
    let g := gate_call c rt cfg frame1 s1
    ⟨.trusted_entry frame :: .gate_call frame1 :: g.trace, g.result.map (fun r => ((), r.2))⟩

end sdktyche

namespace trusted_runtime

/-- `void trusted_main(capa_index_t ret_handle, void* args)` of
`tyche-trusted-runtime/runtime/lib.c`. -/
def trusted_main (rt : Runtime σ) (ret_handle args : Nat) (s : σ) : Run Unit σ :=
  let frame : frame_t := ⟨ret_handle, args⟩
  match rt.trusted_entry frame s with
  | none => ⟨[.trusted_entry frame], none⟩
  | some (frame1, s1) =>
    match rt.bricks_gate_call frame1 s1 with
    | none => ⟨[.trusted_entry frame, .bricks_gate_call frame1], none⟩
    | some (_, _, s2) => ⟨[.trusted_entry frame, .bricks_gate_call frame1], some ((), s2)⟩

end trusted_runtime

/-- A runtime over the world `Nat` (a counter of the calls made): the entry logic
returns after replacing the frame by `entry frame`, and every gate returns `ret`
to its caller, leaving the frame as it found it. -/
def exRuntime (entry : frame_t → frame_t) (ret : Int) : Runtime Nat where
  trusted_entry := fun f s => some (entry f, s + 1)
  asm_call_gate := fun h a s => some (ret, h, a, s + 1)
  riscv_asm_call_gate := fun h a s => some (ret, h, a, s + 1)
  bricks_gate_call := fun f s => some (ret, f, s + 1)

/-- A runtime whose entry logic never returns. -/
def exRuntimeStuck : Runtime Nat where
  trusted_entry := fun _ _ => none
  asm_call_gate := fun h a s => some (0, h, a, s + 1)
  riscv_asm_call_gate := fun h a s => some (0, h, a, s + 1)
  bricks_gate_call := fun f s => some (0, f, s + 1)

/-! ## The example application: looking up the shared region

`find_default_shared` of `sdktyche/example/enclave_rot_riscv/untrusted/main.c`.
The structures are declared in headers of the SDK; only the fields the function
reads are kept.  `dll_foreach` walks the list from its head along the `next`
links, so the list of shared regions is the list of its elements in that order. -/

/-- The object `shared_sec->segment` points to; the function reads `p_type`. -/
structure segment_t where
  p_type : Nat
deriving DecidableEq, Repr

/-- An element of `enclave->shared_regions`. -/
structure domain_shared_memory_t where
  segment : segment_t
  untrusted_vaddr : Nat
deriving DecidableEq, Repr

/-- The fields of `tyche_domain_t` that `find_default_shared` reads. -/
structure tyche_domain_t where
  shared_regions : List domain_shared_memory_t
deriving DecidableEq, Repr

/-- What `find_default_shared` leaves behind: the pointer it returns (`0` is
`NULL`), the messages given to `ERROR`, and the object `enclave` points to after
the call. -/
structure FindOut where
  ret : Nat
  log : List String
  enclave : Option tyche_domain_t
deriving DecidableEq, Repr

/-- The body of `dll_foreach(&(enclave->shared_regions), shared_sec, list)` in
`find_default_shared`: the address returned from inside the loop, if any. -/
def find_default_shared_loop (KERNEL_SHARED : Nat) : List domain_shared_memory_t → Option Nat
  | [] => none
  | shared_sec :: rest =>
    if shared_sec.segment.p_type = KERNEL_SHARED then
      some shared_sec.untrusted_vaddr
    else
      find_default_shared_loop KERNEL_SHARED rest

/-- `static void* find_default_shared(tyche_domain_t* enclave)`; `none` is the null
pointer, `KERNEL_SHARED` the constant of the SDK headers. -/
def find_default_shared (KERNEL_SHARED : Nat) (enclave : Option tyche_domain_t) : FindOut :=
  match enclave with
  | none => ⟨0, ["Supplied enclave is null."], enclave⟩
  | some e =>
    match find_default_shared_loop KERNEL_SHARED e.shared_regions with
    | some vaddr => ⟨vaddr, [], enclave⟩
    | none => ⟨0, ["Unable to find the shared buffer for the enclave!"], enclave⟩

/-! ## Registering the driver

`tyche_register` and `tyche_unregister` of `ioctl.c`, over the kernel functions
they call and the file's global variables `dev` and `dev_class` (`tyche_cdev` and
`fops` are only ever passed by address and stay in the world). -/

/-- The global variables `dev_t dev` and `struct class* dev_class`. -/
structure Globals where
  dev : Nat
  dev_class : Nat
deriving DecidableEq, Repr

/-- The kernel functions the registration code calls, over a world `σ`, and the
pointer `THIS_MODULE`. -/
structure Linux (σ : Type) where
  THIS_MODULE : Nat
  /-- `alloc_chrdev_region(&dev, baseminor, count, name)`: receives the current
  `dev` and returns its result and the new `dev`. -/
  alloc_chrdev_region : Nat → Nat → Nat → String → σ → Int × Nat × σ
  /-- `cdev_init(&tyche_cdev, &fops)`. -/
  cdev_init : σ → σ
  /-- `cdev_add(&tyche_cdev, dev, count)`. -/
  cdev_add : Nat → Nat → σ → Int × σ
  /-- `class_create(owner, name)`. -/
  class_create : Nat → String → σ → Nat × σ
  /-- `device_create(class, parent, devt, drvdata, fmt)`. -/
  device_create : Nat → Nat → Nat → Nat → String → σ → Nat × σ
  /-- `init_enclaves()`. -/
  init_enclaves : σ → σ
  /-- `device_destroy(class, devt)`. -/
  device_destroy : Nat → Nat → σ → σ
  /-- `class_destroy(class)`. -/
  class_destroy : Nat → σ → σ
  /-- `cdev_del(&tyche_cdev)`. -/
  cdev_del : σ → σ
  /-- `unregister_chrdev_region(dev, count)`. -/
  unregister_chrdev_region : Nat → Nat → σ → σ

/-- One observable step of the registration code. -/
inductive RegEvent where
  | alloc_chrdev_region (baseminor count : Nat) (name : String) (ret : Int) (dev : Nat)
  | cdev_init
  | cdev_add (dev count : Nat) (ret : Int)
  | class_create (owner : Nat) (name : String) (ret : Nat)
  | device_create (cls parent dev drvdata : Nat) (name : String) (ret : Nat)
  | init_enclaves
  | device_destroy (cls dev : Nat)
  | class_destroy (cls : Nat)
  | cdev_del
  | unregister_chrdev_region (dev count : Nat)
  | ERROR (fmt : String)
  | LOG (fmt : String) (args : List Nat)
deriving DecidableEq, Repr

/-- Calls of functions, as opposed to messages given to `ERROR` and `LOG`. -/
def RegEvent.isCall : RegEvent → Bool
  | .ERROR _ => false
  | .LOG _ _ => false
  | _ => true

/-- Calls of `init_enclaves`. -/
def RegEvent.isInitEnclaves : RegEvent → Bool
  | .init_enclaves => true
  | _ => false

/-- Calls of `unregister_chrdev_region`. -/
def RegEvent.isUnregisterRegion : RegEvent → Bool
  | .unregister_chrdev_region _ _ => true
  | _ => false

/-- Calls of `class_destroy`. -/
def RegEvent.isClassDestroy : RegEvent → Bool
  | .class_destroy _ => true
  | _ => false

/-- Calls of `cdev_del`. -/
def RegEvent.isCdevDel : RegEvent → Bool
  | .cdev_del => true
  | _ => false

/-- What the registration code leaves behind. -/
structure RegOut (σ : Type) where
  ret : Int
  trace : List RegEvent
  globals : Globals
  state : σ

/-- `static char* device_name = "tyche";`. -/
def device_name : String := "tyche"

/-- `static char* device_class = "tyche";`. -/
def device_class : String := "tyche"

/-- `static char* device_region = "tyche";`. -/
def device_region : String := "tyche"

/-- `MAJOR(dev)` of the kernel headers. -/
def MAJOR (dev : Nat) : Nat := dev / 2 ^ 20

/-- `MINOR(dev)` of the kernel headers. -/
def MINOR (dev : Nat) : Nat := dev % 2 ^ 20

/-- `int tyche_register(void)`. -/
def tyche_register (c : Consts) (k : Linux σ) (g : Globals) (s : σ) : RegOut σ :=
  let a := k.alloc_chrdev_region g.dev 0 1 device_region s
  let g : Globals := { g with dev := a.2.1 }
  if a.1 < 0 then
    ⟨c.FAILURE, [.alloc_chrdev_region 0 1 device_region a.1 a.2.1,
      .ERROR "cannot allocate major number\n"], g, a.2.2⟩
  else
    let s1 := k.cdev_init a.2.2
    let b := k.cdev_add g.dev 1 s1
    if b.1 < 0 then
      ⟨c.FAILURE, [.alloc_chrdev_region 0 1 device_region a.1 a.2.1,
        .LOG "Major = %d Minor = %d \n" [MAJOR g.dev, MINOR g.dev],
        .cdev_init, .cdev_add g.dev 1 b.1,
        .ERROR "Cannot add the device to the system.\n",
        .unregister_chrdev_region g.dev 1], g, k.unregister_chrdev_region g.dev 1 b.2⟩
    else
      let cl := k.class_create k.THIS_MODULE device_class b.2
      let g : Globals := { g with dev_class := cl.1 }
      if cl.1 = 0 then
        ⟨c.FAILURE, [.alloc_chrdev_region 0 1 device_region a.1 a.2.1,
          .LOG "Major = %d Minor = %d \n" [MAJOR g.dev, MINOR g.dev],
          .cdev_init, .cdev_add g.dev 1 b.1,
          .class_create k.THIS_MODULE device_class cl.1,
          .ERROR "Cannot create the struct class.\n",
          .unregister_chrdev_region g.dev 1], g, k.unregister_chrdev_region g.dev 1 cl.2⟩
      else
        let d := k.device_create g.dev_class 0 g.dev 0 device_name cl.2
        if d.1 = 0 then
          ⟨c.FAILURE, [.alloc_chrdev_region 0 1 device_region a.1 a.2.1,
            .LOG "Major = %d Minor = %d \n" [MAJOR g.dev, MINOR g.dev],
            .cdev_init, .cdev_add g.dev 1 b.1,
            .class_create k.THIS_MODULE device_class cl.1,
            .device_create g.dev_class 0 g.dev 0 device_name d.1,
            .ERROR "Cannot create the Device 1\n",
            .class_destroy g.dev_class,
            .unregister_chrdev_region g.dev 1], g,
            k.unregister_chrdev_region g.dev 1 (k.class_destroy g.dev_class d.2)⟩
        else
          ⟨c.SUCCESS, [.alloc_chrdev_region 0 1 device_region a.1 a.2.1,
            .LOG "Major = %d Minor = %d \n" [MAJOR g.dev, MINOR g.dev],
            .cdev_init, .cdev_add g.dev 1 b.1,
            .class_create k.THIS_MODULE device_class cl.1,
            .device_create g.dev_class 0 g.dev 0 device_name d.1,
            .init_enclaves,
            .LOG "Tyche driver registered!\n" []], g, k.init_enclaves d.2⟩

/-- `void tyche_unregister(void)`. -/
def tyche_unregister (k : Linux σ) (g : Globals) (s : σ) : List RegEvent × σ :=
  ([.device_destroy g.dev_class g.dev, .class_destroy g.dev_class, .cdev_del,
      .unregister_chrdev_region g.dev 1, .LOG "Tyche driver unregistered!\n" []],
    k.unregister_chrdev_region g.dev 1
      (k.cdev_del (k.class_destroy g.dev_class (k.device_destroy g.dev_class g.dev s))))

/-- Kernel functions over the world `Nat` (a counter of the calls made):
`alloc_chrdev_region` returns `ra` and sets `dev` to `511 * 2 ^ 20`, `cdev_add`
returns `rb`, `class_create` returns `pc`, `device_create` returns `pd`. -/
def exLinux (ra rb : Int) (pc pd : Nat) : Linux Nat where
  THIS_MODULE := 64
  alloc_chrdev_region := fun _ _ _ _ s => (ra, 511 * 2 ^ 20, s + 1)
  cdev_init := fun s => s + 1
  cdev_add := fun _ _ s => (rb, s + 1)
  class_create := fun _ _ s => (pc, s + 1)
  device_create := fun _ _ _ _ _ s => (pd, s + 1)
  init_enclaves := fun s => s + 1
  device_destroy := fun _ _ s => s + 1
  class_destroy := fun _ s => s + 1
  cdev_del := fun s => s + 1
  unregister_chrdev_region := fun _ _ s => s + 1

/-! ## The domain lifecycle behind the driver

`create_enclave`, `commit_enclave`, `mprotect_enclave`, `switch_enclave`,
`delete_enclave`, `get_physoffset_enclave` and `mmap_segment` are defined in
`enclaves.c`, which is not among the files embedded here.  Where a statement is
about what they decide, they are taken from the lifecycle the specification gives
(sections 3, 4.2, 4.4 and 6). -/

/-- Modelled from the spec: the states of a domain, "`Uninitialized → Created →
Configured → Sealed → Running ⇄ Suspended → Terminated`" (section 4.2); the
implementation in `enclaves.c` is missing. -/
inductive Lifecycle where
  | Uninitialized
  | Created
  | Configured
  | Sealed
  | Running
  | Suspended
  | Terminated
deriving DecidableEq, Repr

/-- Modelled from the spec: the session table, "a 1:1 binding between a
process's open file descriptor and exactly one Domain" (section 3): for each
handle the state of the domain bound to it, `none` when no domain is bound.
`tick` counts the calls made so far. -/
structure Sessions where
  domain : Nat → Option Lifecycle
  tick : Nat

/-- Bind, rebind or unbind the domain of one handle and count the call. -/
def Sessions.set (w : Sessions) (h : Nat) (st : Option Lifecycle) : Sessions :=
  ⟨fun x => if x = h then st else w.domain x, w.tick + 1⟩

/-- Count a call that leaves the table alone. -/
def Sessions.next (w : Sessions) : Sessions := ⟨w.domain, w.tick + 1⟩

/-- A transition capability has been issued for the domain of `h`: it is sealed,
running or suspended. -/
def Sessions.isSealed (w : Sessions) (h : Nat) : Bool :=
  match w.domain h with
  | some .Sealed => true
  | some .Running => true
  | some .Suspended => true
  | _ => false

/-- What the lifecycle does not determine: whether the monitor carries out a call
that the state machine allows (it may reject it, "e.g., resource exhaustion"), the
physical offset of a domain, and the user memory the payloads are copied from and
to.  Each may depend on the number of calls made before. -/
structure Surroundings where
  monitor_accepts : Nat → Bool
  physoffset : Nat → Nat
  uncopied : Nat → Nat
  user_memory : (k : MsgKind) → Nat → Nat → k.struct

/-- Modelled from the spec: the functions of `enclaves.c`, which is missing, as the
lifecycle of section 4.2 seen through the session layer of section 4.4.

* `create_enclave` ("allocates a new Domain via `create_domain`; binds it 1:1 to
  `handle`; fails the open if creation fails"): on a handle with no domain,
  `Uninitialized → Created`.
* `mprotect_enclave` ("changes rights on a region"; a domain "cannot be reconfigured
  after sealing", configuration is "valid only in `Created`/`Configured`" and moves
  the state to `Configured`).
* `commit_enclave` ("seals the domain"; `seal` is "valid only in `Configured`" and
  "moves to `Sealed`").
* `switch_enclave` (`switch` is "valid in `Sealed` or `Suspended`"; the call returns
  on the domain's cooperative return, which leaves it `Suspended`).
* `delete_enclave` ("looks up the bound Domain; calls `delete`; unbinds"; `delete`
  is "valid in any state").
* `get_physoffset_enclave` ("queries domain's physical memory offset"), read-only,
  on a bound domain.
* `mmap_segment` ("fails if no domain is bound or the segment is not mappable (e.g.,
  not yet committed)").

A call the state machine does not allow fails and changes nothing; one it allows
succeeds if the monitor carries it out.  `copy_from_user` and `copy_to_user` read
and write the user memory of the surroundings. -/
def specKernel (c : Consts) (env : Surroundings) : Kernel Sessions where
  create_enclave := fun h w =>
    if w.domain h = none ∧ env.monitor_accepts w.tick = true then
      (c.SUCCESS, w.set h (some .Created))
    else (c.FAILURE, w.next)
  delete_enclave := fun h w =>
    if (w.domain h).isSome then (c.SUCCESS, w.set h none) else (c.FAILURE, w.next)
  get_physoffset_enclave := fun h old w =>
    if (w.domain h).isSome then (c.SUCCESS, env.physoffset h, w.next)
    else (c.FAILURE, old, w.next)
  commit_enclave := fun h _ _ _ w =>
    if w.domain h = some .Configured ∧ env.monitor_accepts w.tick = true then
      (c.SUCCESS, w.set h (some .Sealed))
    else (c.FAILURE, w.next)
  mprotect_enclave := fun h _ _ _ _ w =>
    if (w.domain h = some .Created ∨ w.domain h = some .Configured) ∧
        env.monitor_accepts w.tick = true then
      (c.SUCCESS, w.set h (some .Configured))
    else (c.FAILURE, w.next)
  switch_enclave := fun h _ w =>
    if (w.domain h = some .Sealed ∨ w.domain h = some .Suspended) ∧
        env.monitor_accepts w.tick = true then
      (c.SUCCESS, w.set h (some .Suspended))
    else (c.FAILURE, w.next)
  mmap_segment := fun h _ w =>
    if w.isSealed h = true ∧ env.monitor_accepts w.tick = true then (c.SUCCESS, w.next)
    else (c.FAILURE, w.next)
  copy_to_user := fun _ _ _ w => (env.uncopied w.tick, w.next)
  copy_from_user := fun m old addr _ w =>
    if env.uncopied w.tick = 0 then (0, env.user_memory m w.tick addr, w.next)
    else (env.uncopied w.tick, old, w.next)

/-- One invocation of an entry point of the driver by the operating system. -/
inductive Request where
  | tyche_open (inode file : Nat)
  | tyche_close (inode handle : Nat)
  | tyche_ioctl (handle cmd arg : Nat)
  | tyche_mmap (file vma : Nat)
deriving DecidableEq, Repr

/-- Carry out one request. -/
def Request.exec (c : Consts) (k : Kernel σ) : Request → σ → Out σ
  | .tyche_open inode file, s => Tyche.tyche_open c k inode file s
  | .tyche_close inode handle, s => Tyche.tyche_close c k inode handle s
  | .tyche_ioctl handle cmd arg, s => Tyche.tyche_ioctl c k handle cmd arg s
  | .tyche_mmap file vma, s => Tyche.tyche_mmap k file vma s

/-- Carry out a sequence of requests, one after the other, and log each with the
value it returned. -/
def runRequests (c : Consts) (k : Kernel σ) : List Request → σ → List (Request × Int)
  | [], _ => []
  | r :: rs, s => (r, (r.exec c k s).ret) :: runRequests c k rs (r.exec c k s).state

/-- Surroundings in which the monitor carries out every call, every copy is
complete, and user memory holds the same fixed payloads at every address. -/
def exSurroundings : Surroundings where
  monitor_accepts := fun _ => true
  physoffset := fun _ => 4096
  uncopied := fun _ => 0
  user_memory := fun m _ _ =>
    match m with
    | .info => ⟨11, 12⟩
    | .commit => ⟨21, 22, 23⟩
    | .mprotect => ⟨31, 32, 33, 34⟩
    | .transition => ⟨41⟩

/-- The session table in which no handle has a domain. -/
def noSessions : Sessions := ⟨fun _ => none, 0⟩

/-! ## Collaborators whose world records what was done to it -/

/-- A kernel whose world is user memory, as the list of the structures written to
it with their addresses, latest last: `copy_to_user` is complete and appends what
it wrote; `get_physoffset_enclave` succeeds and writes `4096`; every other
function succeeds and leaves user memory alone. -/
def exUserKernel : Kernel (List (Nat × msg_enclave_info_t)) where
  create_enclave := fun _ s => (0, s)
  delete_enclave := fun _ s => (0, s)
  get_physoffset_enclave := fun _ _ s => (0, 4096, s)
  commit_enclave := fun _ _ _ _ s => (0, s)
  mprotect_enclave := fun _ _ _ _ _ s => (0, s)
  switch_enclave := fun _ _ s => (0, s)
  mmap_segment := fun _ _ s => (0, s)
  copy_to_user := fun dst src _ s => (0, s ++ [(dst, src)])
  copy_from_user := fun _ old _ _ s => (0, old, s)

/-- Kernel functions whose world is the list of the calls that were really carried
out, latest last, with the results of `exLinux`. -/
def exLinuxLog (ra rb : Int) (pc pd : Nat) : Linux (List RegEvent) where
  THIS_MODULE := 64
  alloc_chrdev_region := fun _ baseminor count name s =>
    (ra, 511 * 2 ^ 20, s ++ [.alloc_chrdev_region baseminor count name ra (511 * 2 ^ 20)])
  cdev_init := fun s => s ++ [.cdev_init]
  cdev_add := fun dev count s => (rb, s ++ [.cdev_add dev count rb])
  class_create := fun owner name s => (pc, s ++ [.class_create owner name pc])
  device_create := fun cls parent dev drvdata name s =>
    (pd, s ++ [.device_create cls parent dev drvdata name pd])
  init_enclaves := fun s => s ++ [.init_enclaves]
  device_destroy := fun cls dev s => s ++ [.device_destroy cls dev]
  class_destroy := fun cls s => s ++ [.class_destroy cls]
  cdev_del := fun s => s ++ [.cdev_del]
  unregister_chrdev_region := fun dev count s => s ++ [.unregister_chrdev_region dev count]

/-! ## The device-control entry point -/

/-- Distinct labels, spelled out. -/
theorem labelsDistinct_iff (c : Consts) :
    c.labelsDistinct ↔
      (c.TYCHE_ENCLAVE_GET_PHYSOFFSET ≠ c.TYCHE_ENCLAVE_COMMIT ∧
        c.TYCHE_ENCLAVE_GET_PHYSOFFSET ≠ c.TYCHE_ENCLAVE_MPROTECT ∧
        c.TYCHE_ENCLAVE_GET_PHYSOFFSET ≠ c.TYCHE_TRANSITION) ∧
      (c.TYCHE_ENCLAVE_COMMIT ≠ c.TYCHE_ENCLAVE_MPROTECT ∧
        c.TYCHE_ENCLAVE_COMMIT ≠ c.TYCHE_TRANSITION) ∧
      c.TYCHE_ENCLAVE_MPROTECT ≠ c.TYCHE_TRANSITION := by
  simp [Consts.labelsDistinct]

/-- C1: when `tyche_ioctl` is called with `TYCHE_ENCLAVE_COMMIT`,
`TYCHE_ENCLAVE_MPROTECT` or `TYCHE_TRANSITION` and the `copy_from_user` it makes
returns non-zero, it returns `FAILURE`, that failed copy is the only
`copy_from_user` it makes, the world is left as that copy left it, and it invokes
none of `commit_enclave`, `mprotect_enclave`, `switch_enclave` and
`get_physoffset_enclave` (nor any other function of `enclaves.h`). -/
theorem tyche_ioctl_copy_in_failure (c : Consts) (k : Kernel σ) (handle cmd arg : Nat) (s : σ)
    (hd : c.labelsDistinct) :
    (cmd = c.TYCHE_ENCLAVE_COMMIT →
      (k.copy_from_user .commit ⟨0, 0, 0⟩ arg (c.sizeof .commit) s).1 ≠ 0 →
        (tyche_ioctl c k handle cmd arg s).ret = c.FAILURE ∧
        (tyche_ioctl c k handle cmd arg s).trace.filter Event.isCopyFromUser =
          [.copy_from_user .commit arg (c.sizeof .commit)
            (k.copy_from_user .commit ⟨0, 0, 0⟩ arg (c.sizeof .commit) s).1] ∧
        (tyche_ioctl c k handle cmd arg s).state =
          (k.copy_from_user .commit ⟨0, 0, 0⟩ arg (c.sizeof .commit) s).2.2 ∧
        ∀ e ∈ (tyche_ioctl c k handle cmd arg s).trace, e.isEnclaveCall = false) ∧
    (cmd = c.TYCHE_ENCLAVE_MPROTECT →
      (k.copy_from_user .mprotect ⟨0, 0, 0, 0⟩ arg (c.sizeof .mprotect) s).1 ≠ 0 →
        (tyche_ioctl c k handle cmd arg s).ret = c.FAILURE ∧
        (tyche_ioctl c k handle cmd arg s).trace.filter Event.isCopyFromUser =
          [.copy_from_user .mprotect arg (c.sizeof .mprotect)
            (k.copy_from_user .mprotect ⟨0, 0, 0, 0⟩ arg (c.sizeof .mprotect) s).1] ∧
        (tyche_ioctl c k handle cmd arg s).state =
          (k.copy_from_user .mprotect ⟨0, 0, 0, 0⟩ arg (c.sizeof .mprotect) s).2.2 ∧
        ∀ e ∈ (tyche_ioctl c k handle cmd arg s).trace, e.isEnclaveCall = false) ∧
    (cmd = c.TYCHE_TRANSITION →
      (k.copy_from_user .transition ⟨0⟩ arg (c.sizeof .transition) s).1 ≠ 0 →
        (tyche_ioctl c k handle cmd arg s).ret = c.FAILURE ∧
        (tyche_ioctl c k handle cmd arg s).trace.filter Event.isCopyFromUser =
          [.copy_from_user .transition arg (c.sizeof .transition)
            (k.copy_from_user .transition ⟨0⟩ arg (c.sizeof .transition) s).1] ∧
        (tyche_ioctl c k handle cmd arg s).state =
          (k.copy_from_user .transition ⟨0⟩ arg (c.sizeof .transition) s).2.2 ∧
        ∀ e ∈ (tyche_ioctl c k handle cmd arg s).trace, e.isEnclaveCall = false) := by
  obtain ⟨⟨h12, h13, h14⟩, ⟨h23, h24⟩, h34⟩ := (labelsDistinct_iff c).1 hd
  refine ⟨?_, ?_, ?_⟩
  · intro hc hf
    subst hc
    simp [tyche_ioctl, Ne.symm h12, hf, Event.isCopyFromUser, Event.isEnclaveCall,
      Event.isEnclaveOp]
  · intro hc hf
    subst hc
    simp [tyche_ioctl, Ne.symm h13, Ne.symm h23, hf, Event.isCopyFromUser,
      Event.isEnclaveCall, Event.isEnclaveOp]
  · intro hc hf
    subst hc
    simp [tyche_ioctl, Ne.symm h14, Ne.symm h24, Ne.symm h34, hf, Event.isCopyFromUser,
      Event.isEnclaveCall, Event.isEnclaveOp]

/-- The three failing copies of C1, on a kernel whose `copy_from_user` leaves three
bytes uncopied. -/
theorem tyche_ioctl_copy_in_failure_witness :
    exConsts.labelsDistinct ∧
    ((tyche_ioctl exConsts (exKernel 0 3) 7 2 100 0).ret = exConsts.FAILURE ∧
      (tyche_ioctl exConsts (exKernel 0 3) 7 2 100 0).trace.filter Event.isCopyFromUser =
        [.copy_from_user .commit 100 (exConsts.sizeof .commit)
          ((exKernel 0 3).copy_from_user .commit ⟨0, 0, 0⟩ 100 (exConsts.sizeof .commit) 0).1] ∧
      (tyche_ioctl exConsts (exKernel 0 3) 7 2 100 0).state = 1 ∧
      ∀ e ∈ (tyche_ioctl exConsts (exKernel 0 3) 7 2 100 0).trace, e.isEnclaveCall = false) ∧
    ((tyche_ioctl exConsts (exKernel 0 3) 7 3 100 0).ret = exConsts.FAILURE ∧
      (tyche_ioctl exConsts (exKernel 0 3) 7 3 100 0).trace.filter Event.isCopyFromUser =
        [.copy_from_user .mprotect 100 (exConsts.sizeof .mprotect)
          ((exKernel 0 3).copy_from_user .mprotect ⟨0, 0, 0, 0⟩ 100
            (exConsts.sizeof .mprotect) 0).1] ∧
      (tyche_ioctl exConsts (exKernel 0 3) 7 3 100 0).state = 1 ∧
      ∀ e ∈ (tyche_ioctl exConsts (exKernel 0 3) 7 3 100 0).trace, e.isEnclaveCall = false) ∧
    ((tyche_ioctl exConsts (exKernel 0 3) 7 4 100 0).ret = exConsts.FAILURE ∧
      (tyche_ioctl exConsts (exKernel 0 3) 7 4 100 0).trace.filter Event.isCopyFromUser =
        [.copy_from_user .transition 100 (exConsts.sizeof .transition)
          ((exKernel 0 3).copy_from_user .transition ⟨0⟩ 100
            (exConsts.sizeof .transition) 0).1] ∧
      (tyche_ioctl exConsts (exKernel 0 3) 7 4 100 0).state = 1 ∧
      ∀ e ∈ (tyche_ioctl exConsts (exKernel 0 3) 7 4 100 0).trace, e.isEnclaveCall = false) :=
  ⟨by decide,
    (tyche_ioctl_copy_in_failure exConsts (exKernel 0 3) 7 2 100 0 (by decide)).1 rfl
      (by decide),
    (tyche_ioctl_copy_in_failure exConsts (exKernel 0 3) 7 3 100 0 (by decide)).2.1 rfl
      (by decide),
    (tyche_ioctl_copy_in_failure exConsts (exKernel 0 3) 7 4 100 0 (by decide)).2.2 rfl
      (by decide)⟩

/-- Outside the `TYCHE_ENCLAVE_GET_PHYSOFFSET` case nothing is copied out. -/
theorem tyche_ioctl_no_copy_out (c : Consts) (k : Kernel σ) (handle cmd arg : Nat) (s : σ)
    (h1 : cmd ≠ c.TYCHE_ENCLAVE_GET_PHYSOFFSET) :
    ∀ e ∈ (tyche_ioctl c k handle cmd arg s).trace, e.isCopyToUser = false := by
  unfold tyche_ioctl
  simp only [h1, if_false]
  split_ifs <;> simp [Event.isCopyToUser]

/-- C2: `tyche_ioctl` copies out to user memory only after the dispatched operation
returned `SUCCESS`: a `copy_to_user` in the trace comes right after a
`get_physoffset_enclave` on the same handle that returned `SUCCESS`, and nothing
precedes them; if `get_physoffset_enclave` fails on a
`TYCHE_ENCLAVE_GET_PHYSOFFSET` request, `FAILURE` is returned without any
`copy_to_user`; for every other request code there is no `copy_to_user` at all. -/
theorem tyche_ioctl_copy_out_after_success (c : Consts) (k : Kernel σ)
    (handle cmd arg : Nat) (s : σ) :
    (∀ e ∈ (tyche_ioctl c k handle cmd arg s).trace, e.isCopyToUser = true →
      cmd = c.TYCHE_ENCLAVE_GET_PHYSOFFSET ∧
      (k.get_physoffset_enclave handle c.UNINIT_USIZE s).1 = c.SUCCESS ∧
      ∃ rest, (tyche_ioctl c k handle cmd arg s).trace =
          .get_physoffset_enclave handle c.SUCCESS :: e :: rest ∧
        ∀ e2 ∈ rest, e2.isCopyToUser = false) ∧
    (cmd = c.TYCHE_ENCLAVE_GET_PHYSOFFSET →
      (k.get_physoffset_enclave handle c.UNINIT_USIZE s).1 ≠ c.SUCCESS →
        (tyche_ioctl c k handle cmd arg s).ret = c.FAILURE ∧
        ∀ e ∈ (tyche_ioctl c k handle cmd arg s).trace, e.isCopyToUser = false) ∧
    (cmd ≠ c.TYCHE_ENCLAVE_GET_PHYSOFFSET →
      ∀ e ∈ (tyche_ioctl c k handle cmd arg s).trace, e.isCopyToUser = false) := by
  refine ⟨?_, ?_, ?_⟩
  · intro e he hc
    unfold tyche_ioctl at he ⊢
    by_cases h1 : cmd = c.TYCHE_ENCLAVE_GET_PHYSOFFSET
    · by_cases hg : (k.get_physoffset_enclave handle c.UNINIT_USIZE s).1 = c.SUCCESS
      · by_cases hu : (k.copy_to_user arg
            ⟨c.UNINIT_USIZE, (k.get_physoffset_enclave handle c.UNINIT_USIZE s).2.1⟩
            (c.sizeof .info) (k.get_physoffset_enclave handle c.UNINIT_USIZE s).2.2).1 = 0
        · simp [h1, hg, hu] at he ⊢
          rcases he with he | he
          · subst he; simp [Event.isCopyToUser] at hc
          · subst he; simp [hu]
        · simp [h1, hg, hu] at he ⊢
          rcases he with he | he | he
          · subst he; simp [Event.isCopyToUser] at hc
          · subst he; simp [Event.isCopyToUser]
          · subst he; simp [Event.isCopyToUser] at hc
      · simp [h1, hg] at he
        rcases he with he | he <;> subst he <;> simp [Event.isCopyToUser] at hc
    · have := tyche_ioctl_no_copy_out c k handle cmd arg s h1 e (by unfold tyche_ioctl; exact he)
      simp [this] at hc
  · intro h1 hg
    subst h1
    simp [tyche_ioctl, hg, Event.isCopyToUser]
  · exact tyche_ioctl_no_copy_out c k handle cmd arg s

/-- C2 on a kernel whose `get_physoffset_enclave` fails (first and second part) and
on a commit request (third part); in the successful query the copy follows the
successful `get_physoffset_enclave`. -/
theorem tyche_ioctl_copy_out_after_success_witness :
    (Event.copy_to_user 100 ⟨2 ^ 64 - 1, 4096⟩ 16 0 ∈
        (tyche_ioctl exConsts (exKernel 0 0) 7 1 100 0).trace ∧
      (1 = exConsts.TYCHE_ENCLAVE_GET_PHYSOFFSET ∧
      ((exKernel 0 0).get_physoffset_enclave 7 exConsts.UNINIT_USIZE 0).1 = exConsts.SUCCESS ∧
      ∃ rest, (tyche_ioctl exConsts (exKernel 0 0) 7 1 100 0).trace =
          .get_physoffset_enclave 7 exConsts.SUCCESS ::
            Event.copy_to_user 100 ⟨2 ^ 64 - 1, 4096⟩ 16 0 :: rest ∧
        ∀ e2 ∈ rest, e2.isCopyToUser = false)) ∧
    ((tyche_ioctl exConsts (exKernel (-1) 0) 7 1 100 0).ret = exConsts.FAILURE ∧
      ∀ e ∈ (tyche_ioctl exConsts (exKernel (-1) 0) 7 1 100 0).trace,
        e.isCopyToUser = false) ∧
    (2 ≠ exConsts.TYCHE_ENCLAVE_GET_PHYSOFFSET ∧
      ∀ e ∈ (tyche_ioctl exConsts (exKernel 0 0) 7 2 100 0).trace, e.isCopyToUser = false) :=
  ⟨⟨by decide,
      (tyche_ioctl_copy_out_after_success exConsts (exKernel 0 0) 7 1 100 0).1 _
        (by decide) rfl⟩,
    (tyche_ioctl_copy_out_after_success exConsts (exKernel (-1) 0) 7 1 100 0).2.1 rfl
      (by decide),
    by decide,
    (tyche_ioctl_copy_out_after_success exConsts (exKernel 0 0) 7 2 100 0).2.2 (by decide)⟩

/-- C3: for a request code that is none of the four case labels, `tyche_ioctl`
reports the invalid command and returns `FAILURE`; it calls no function of
`enclaves.h`, no `copy_from_user` and no `copy_to_user`, and leaves the world as it
found it. -/
theorem tyche_ioctl_unknown_request (c : Consts) (k : Kernel σ) (handle cmd arg : Nat) (s : σ)
    (h1 : cmd ≠ c.TYCHE_ENCLAVE_GET_PHYSOFFSET) (h2 : cmd ≠ c.TYCHE_ENCLAVE_COMMIT)
    (h3 : cmd ≠ c.TYCHE_ENCLAVE_MPROTECT) (h4 : cmd ≠ c.TYCHE_TRANSITION) :
    (tyche_ioctl c k handle cmd arg s).ret = c.FAILURE ∧
    (tyche_ioctl c k handle cmd arg s).trace = [.ERROR "The command is not valid!" []] ∧
    (tyche_ioctl c k handle cmd arg s).state = s ∧
    ∀ e ∈ (tyche_ioctl c k handle cmd arg s).trace,
      e.isEnclaveCall = false ∧ e.isCopyFromUser = false ∧ e.isCopyToUser = false := by
  simp [tyche_ioctl, h1, h2, h3, h4, Event.isEnclaveCall, Event.isEnclaveOp,
    Event.isCopyFromUser, Event.isCopyToUser]

/-- C3 at the request code `9`, which is none of `1`, `2`, `3`, `4`. -/
theorem tyche_ioctl_unknown_request_witness :
    (tyche_ioctl exConsts (exKernel 0 0) 7 9 100 0).ret = exConsts.FAILURE ∧
    (tyche_ioctl exConsts (exKernel 0 0) 7 9 100 0).trace =
      [.ERROR "The command is not valid!" []] ∧
    (tyche_ioctl exConsts (exKernel 0 0) 7 9 100 0).state = 0 ∧
    ∀ e ∈ (tyche_ioctl exConsts (exKernel 0 0) 7 9 100 0).trace,
      e.isEnclaveCall = false ∧ e.isCopyFromUser = false ∧ e.isCopyToUser = false :=
  tyche_ioctl_unknown_request exConsts (exKernel 0 0) 7 9 100 0
    (by decide) (by decide) (by decide) (by decide)

/-- C4: for each of the four request codes, when the payload copy-in succeeds
(there is none for `TYCHE_ENCLAVE_GET_PHYSOFFSET`), the calls `tyche_ioctl` makes
to functions of `enclaves.h` are exactly one call, on the handle it was given:
`get_physoffset_enclave`, `commit_enclave` with `(page_tables, entry, stack)`,
`mprotect_enclave` with `(start, size, flags, tpe)`, `switch_enclave` with `args`,
the arguments being the fields of the structure `copy_from_user` filled.  The call
is made in the world the copy-in left, and the world it produces is the one
`tyche_ioctl` leaves (for the query, after the copy-out when it succeeded). -/
theorem tyche_ioctl_dispatch (c : Consts) (k : Kernel σ) (handle cmd arg : Nat) (s : σ)
    (hd : c.labelsDistinct) :
    (cmd = c.TYCHE_ENCLAVE_GET_PHYSOFFSET →
      (tyche_ioctl c k handle cmd arg s).trace.filter Event.isEnclaveCall =
        [.get_physoffset_enclave handle
          (k.get_physoffset_enclave handle c.UNINIT_USIZE s).1] ∧
      (tyche_ioctl c k handle cmd arg s).state =
        if (k.get_physoffset_enclave handle c.UNINIT_USIZE s).1 = c.SUCCESS then
          (k.copy_to_user arg
            ⟨c.UNINIT_USIZE, (k.get_physoffset_enclave handle c.UNINIT_USIZE s).2.1⟩
            (c.sizeof .info) (k.get_physoffset_enclave handle c.UNINIT_USIZE s).2.2).2
        else (k.get_physoffset_enclave handle c.UNINIT_USIZE s).2.2) ∧
    (cmd = c.TYCHE_ENCLAVE_COMMIT →
      ∀ m s1, k.copy_from_user .commit ⟨0, 0, 0⟩ arg (c.sizeof .commit) s = (0, m, s1) →
        (tyche_ioctl c k handle cmd arg s).trace.filter Event.isEnclaveCall =
          [.commit_enclave handle m.page_tables m.entry m.stack
            (k.commit_enclave handle m.page_tables m.entry m.stack s1).1] ∧
        (tyche_ioctl c k handle cmd arg s).state =
          (k.commit_enclave handle m.page_tables m.entry m.stack s1).2) ∧
    (cmd = c.TYCHE_ENCLAVE_MPROTECT →
      ∀ m s1, k.copy_from_user .mprotect ⟨0, 0, 0, 0⟩ arg (c.sizeof .mprotect) s = (0, m, s1) →
        (tyche_ioctl c k handle cmd arg s).trace.filter Event.isEnclaveCall =
          [.mprotect_enclave handle m.start m.size m.flags m.tpe
            (k.mprotect_enclave handle m.start m.size m.flags m.tpe s1).1] ∧
        (tyche_ioctl c k handle cmd arg s).state =
          (k.mprotect_enclave handle m.start m.size m.flags m.tpe s1).2) ∧
    (cmd = c.TYCHE_TRANSITION →
      ∀ m s1, k.copy_from_user .transition ⟨0⟩ arg (c.sizeof .transition) s = (0, m, s1) →
        (tyche_ioctl c k handle cmd arg s).trace.filter Event.isEnclaveCall =
          [.switch_enclave handle m.args (k.switch_enclave handle m.args s1).1] ∧
        (tyche_ioctl c k handle cmd arg s).state =
          (k.switch_enclave handle m.args s1).2) := by
  obtain ⟨⟨h12, h13, h14⟩, ⟨h23, h24⟩, h34⟩ := (labelsDistinct_iff c).1 hd
  refine ⟨?_, ?_, ?_, ?_⟩
  · intro hc
    subst hc
    unfold tyche_ioctl
    simp only [if_true]
    split_ifs <;> simp_all [Event.isEnclaveCall, Event.isEnclaveOp]
  · intro hc m s1 hu
    subst hc
    unfold tyche_ioctl
    simp only [Ne.symm h12, if_false, if_true, hu]
    split_ifs <;> simp_all [Event.isEnclaveCall, Event.isEnclaveOp]
  · intro hc m s1 hu
    subst hc
    unfold tyche_ioctl
    simp only [Ne.symm h13, Ne.symm h23, if_false, if_true, hu]
    split_ifs <;> simp_all [Event.isEnclaveCall, Event.isEnclaveOp]
  · intro hc m s1 hu
    subst hc
    unfold tyche_ioctl
    simp only [Ne.symm h14, Ne.symm h24, Ne.symm h34, if_false, if_true, hu]
    split_ifs <;> simp_all [Event.isEnclaveCall, Event.isEnclaveOp]

/-- C4 at the four request codes, on a kernel whose copies succeed and fill the
structures with `(21, 22, 23)`, `(31, 32, 33, 34)` and `(41)`; its world counts
the calls made, two for each request. -/
theorem tyche_ioctl_dispatch_witness :
    exConsts.labelsDistinct ∧
    ((tyche_ioctl exConsts (exKernel 0 0) 7 1 100 0).trace.filter Event.isEnclaveCall =
        [.get_physoffset_enclave 7
          ((exKernel 0 0).get_physoffset_enclave 7 exConsts.UNINIT_USIZE 0).1] ∧
      (tyche_ioctl exConsts (exKernel 0 0) 7 1 100 0).state = 2) ∧
    ((tyche_ioctl exConsts (exKernel 0 0) 7 2 100 0).trace.filter Event.isEnclaveCall =
        [.commit_enclave 7 21 22 23 ((exKernel 0 0).commit_enclave 7 21 22 23 1).1] ∧
      (tyche_ioctl exConsts (exKernel 0 0) 7 2 100 0).state = 2) ∧
    ((tyche_ioctl exConsts (exKernel 0 0) 7 3 100 0).trace.filter Event.isEnclaveCall =
        [.mprotect_enclave 7 31 32 33 34
          ((exKernel 0 0).mprotect_enclave 7 31 32 33 34 1).1] ∧
      (tyche_ioctl exConsts (exKernel 0 0) 7 3 100 0).state = 2) ∧
    ((tyche_ioctl exConsts (exKernel 0 0) 7 4 100 0).trace.filter Event.isEnclaveCall =
        [.switch_enclave 7 41 ((exKernel 0 0).switch_enclave 7 41 1).1] ∧
      (tyche_ioctl exConsts (exKernel 0 0) 7 4 100 0).state = 2) :=
  ⟨by decide,
    (tyche_ioctl_dispatch exConsts (exKernel 0 0) 7 1 100 0 (by decide)).1 rfl,
    (tyche_ioctl_dispatch exConsts (exKernel 0 0) 7 2 100 0 (by decide)).2.1 rfl
      ⟨21, 22, 23⟩ 1 rfl,
    (tyche_ioctl_dispatch exConsts (exKernel 0 0) 7 3 100 0 (by decide)).2.2.1 rfl
      ⟨31, 32, 33, 34⟩ 1 rfl,
    (tyche_ioctl_dispatch exConsts (exKernel 0 0) 7 4 100 0 (by decide)).2.2.2 rfl
      ⟨41⟩ 1 rfl⟩

/-! ## Return values of the entry points -/

/-- C5, as stated, fails for `tyche_mmap`: with `SUCCESS = 0` and `FAILURE = -1`, when
`mmap_segment` returns `7`, `tyche_mmap` returns `7`. -/
theorem tyche_mmap_returns_other_code :
    (tyche_mmap (exKernel 7 0) 1 2 0).ret = 7 ∧
    (tyche_mmap (exKernel 7 0) 1 2 0).ret ≠ exConsts.SUCCESS ∧
    (tyche_mmap (exKernel 7 0) 1 2 0).ret ≠ exConsts.FAILURE := by
  decide

/-- C5, amended: `tyche_open`, `tyche_close` and `tyche_ioctl` return `SUCCESS` or
`FAILURE` and no other value, for all inputs and all results of their
collaborators; `tyche_mmap` returns the value `mmap_segment` returned. -/
theorem entry_points_return_values (c : Consts) (k : Kernel σ)
    (inode file handle cmd arg vma : Nat) (s : σ) :
    ((tyche_open c k inode file s).ret = c.SUCCESS ∨
      (tyche_open c k inode file s).ret = c.FAILURE) ∧
    ((tyche_close c k inode handle s).ret = c.SUCCESS ∨
      (tyche_close c k inode handle s).ret = c.FAILURE) ∧
    ((tyche_ioctl c k handle cmd arg s).ret = c.SUCCESS ∨
      (tyche_ioctl c k handle cmd arg s).ret = c.FAILURE) ∧
    (tyche_mmap k file vma s).ret = (k.mmap_segment file vma s).1 := by
  refine ⟨?_, ?_, ?_, rfl⟩
  · simp only [tyche_open]
    repeat' split
    all_goals simp
  · simp only [tyche_close]
    repeat' split
    all_goals simp
  · simp only [tyche_ioctl]
    repeat' split
    all_goals simp

/-! ## The trusted runtime gate -/

/-- The assembly gates are the only calls `gate_call` makes. -/
theorem gate_call_trace_no_entry_no_gate (c : Consts) (rt : Runtime σ) (cfg : BuildConfig)
    (frame : frame_t) (s : σ) :
    ∀ e ∈ (sdktyche.gate_call c rt cfg frame s).trace,
      e.isEntry = false ∧ e.isGateReturn = false ∧ e.isMonitorCall = false := by
  unfold sdktyche.gate_call
  repeat' split
  all_goals simp [GateEvent.isEntry, GateEvent.isGateReturn, GateEvent.isMonitorCall]

/-- C7, as stated, fails: an entry logic that overwrites `frame->ret_handle` with `0`
makes `trusted_main`, entered with `ret_handle = 5`, issue the gate call with the
capability `0`. -/
theorem trusted_main_gate_capability_overwritten :
    (sdktyche.trusted_main exConsts (exRuntime (fun f => ⟨0, f.args⟩) 0) ⟨true, false⟩
        5 9 0).trace =
      [.trusted_entry ⟨5, 9⟩, .gate_call ⟨0, 9⟩, .asm_call_gate 0 9] ∧
    (⟨0, 9⟩ : frame_t).ret_handle ≠ 5 := by
  decide

/-- C7, amended: the gate-return call issued by `trusted_main` is made on the frame
as the entry logic left it, so the capability it carries is the `ret_handle` field
the entry logic left in the frame; it equals the `ret_handle` that `trusted_main`
received whenever the entry logic left that field unchanged.  In the SDK runtime
the assembly gate, when one is called, receives that same capability. -/
theorem trusted_main_gate_capability (c : Consts) (rt : Runtime σ) (cfg : BuildConfig)
    (ret_handle args : Nat) (s : σ) :
    (∀ f, GateEvent.gate_call f ∈ (sdktyche.trusted_main c rt cfg ret_handle args s).trace →
      (∃ s1, rt.trusted_entry ⟨ret_handle, args⟩ s = some (f, s1)) ∧
      ∀ capa a, (GateEvent.asm_call_gate capa a ∈
            (sdktyche.trusted_main c rt cfg ret_handle args s).trace ∨
          GateEvent.riscv_asm_call_gate capa a ∈
            (sdktyche.trusted_main c rt cfg ret_handle args s).trace) →
        capa = f.ret_handle) ∧
    (∀ f, GateEvent.bricks_gate_call f ∈ (trusted_runtime.trusted_main rt ret_handle args s).trace →
      ∃ s1, rt.trusted_entry ⟨ret_handle, args⟩ s = some (f, s1)) ∧
    (∀ f s1, rt.trusted_entry ⟨ret_handle, args⟩ s = some (f, s1) →
      f.ret_handle = ret_handle →
        (∀ g, GateEvent.gate_call g ∈ (sdktyche.trusted_main c rt cfg ret_handle args s).trace →
          g.ret_handle = ret_handle) ∧
        (∀ g, GateEvent.bricks_gate_call g ∈
            (trusted_runtime.trusted_main rt ret_handle args s).trace →
          g.ret_handle = ret_handle)) := by
  have key : ∀ f, GateEvent.gate_call f ∈
      (sdktyche.trusted_main c rt cfg ret_handle args s).trace →
      ∃ s1, rt.trusted_entry ⟨ret_handle, args⟩ s = some (f, s1) := by
    intro f hf
    unfold sdktyche.trusted_main at hf
    cases he : rt.trusted_entry ⟨ret_handle, args⟩ s with
    | none => simp [he] at hf
    | some p =>
      obtain ⟨f1, s1⟩ := p
      simp only [he, List.mem_cons] at hf
      rcases hf with hf | hf | hf
      · cases hf
      · cases hf; exact ⟨s1, rfl⟩
      · have := (gate_call_trace_no_entry_no_gate c rt cfg f1 s1 _ hf).2.1
        simp [GateEvent.isGateReturn] at this
  have keyB : ∀ f, GateEvent.bricks_gate_call f ∈
      (trusted_runtime.trusted_main rt ret_handle args s).trace →
      ∃ s1, rt.trusted_entry ⟨ret_handle, args⟩ s = some (f, s1) := by
    intro f hf
    unfold trusted_runtime.trusted_main at hf
    cases he : rt.trusted_entry ⟨ret_handle, args⟩ s with
    | none => simp [he] at hf
    | some p =>
      obtain ⟨f1, s1⟩ := p
      simp only [he] at hf
      split at hf <;> simp at hf <;> (subst hf; exact ⟨s1, rfl⟩)
  refine ⟨?_, keyB, ?_⟩
  · intro f hf
    obtain ⟨s1, he⟩ := key f hf
    refine ⟨⟨s1, he⟩, ?_⟩
    intro capa a hca
    simp only [sdktyche.trusted_main, he, sdktyche.gate_call] at hca
    repeat' split at hca
    all_goals simp at hca
    all_goals (try exact hca.1)
  · intro f s1 he hr
    constructor
    · intro g hg
      obtain ⟨s2, he2⟩ := key g hg
      rw [he] at he2
      cases he2
      exact hr
    · intro g hg
      obtain ⟨s2, he2⟩ := keyB g hg
      rw [he] at he2
      cases he2
      exact hr

/-- C7, amended, on a runtime whose entry logic returns the frame it was given. -/
theorem trusted_main_gate_capability_witness :
    GateEvent.gate_call ⟨5, 9⟩ ∈
      (sdktyche.trusted_main exConsts (exRuntime id 0) ⟨true, false⟩ 5 9 0).trace ∧
    GateEvent.asm_call_gate 5 9 ∈
      (sdktyche.trusted_main exConsts (exRuntime id 0) ⟨true, false⟩ 5 9 0).trace ∧
    (∃ s1, (exRuntime id 0).trusted_entry ⟨5, 9⟩ 0 = some (⟨5, 9⟩, s1)) ∧
    5 = (⟨5, 9⟩ : frame_t).ret_handle ∧
    GateEvent.bricks_gate_call ⟨5, 9⟩ ∈
      (trusted_runtime.trusted_main (exRuntime id 0) 5 9 0).trace ∧
    (⟨5, 9⟩ : frame_t).ret_handle = 5 :=
  ⟨by decide, by decide,
    ((trusted_main_gate_capability exConsts (exRuntime id 0) ⟨true, false⟩ 5 9 0).1 ⟨5, 9⟩
      (by decide)).1,
    ((trusted_main_gate_capability exConsts (exRuntime id 0) ⟨true, false⟩ 5 9 0).1 ⟨5, 9⟩
      (by decide)).2 5 9 (Or.inl (by decide)),
    by decide,
    ((trusted_main_gate_capability exConsts (exRuntime id 0) ⟨true, false⟩ 5 9 0).2.2 ⟨5, 9⟩ 1
      rfl rfl).2 ⟨5, 9⟩ (by decide)⟩

/-- C8, as stated, fails: when the gate-return call hands control back, `trusted_main`
makes no further call, so no monitor call `TYCHE_EXIT`, and returns to its
caller, in both runtimes. -/
theorem trusted_main_returns_without_exit :
    (sdktyche.trusted_main exConsts (exRuntime id 0) ⟨true, false⟩ 5 9 0).trace =
      [.trusted_entry ⟨5, 9⟩, .gate_call ⟨5, 9⟩, .asm_call_gate 5 9] ∧
    GateEvent.tyche_call tyche_monitor_call_t.TYCHE_EXIT.val ∉
      (sdktyche.trusted_main exConsts (exRuntime id 0) ⟨true, false⟩ 5 9 0).trace ∧
    (sdktyche.trusted_main exConsts (exRuntime id 0) ⟨true, false⟩ 5 9 0).result =
      some ((), 2) ∧
    (trusted_runtime.trusted_main (exRuntime id 0) 5 9 0).trace =
      [.trusted_entry ⟨5, 9⟩, .bricks_gate_call ⟨5, 9⟩] ∧
    (trusted_runtime.trusted_main (exRuntime id 0) 5 9 0).result = some ((), 2) := by
  decide

/-- C8, amended: `trusted_main` itself never issues a monitor call; when the entry
logic returns and the gate-return call hands control back, `trusted_main` makes no
further call and returns to its caller, in the world the gate left. -/
theorem trusted_main_falls_through (c : Consts) (rt : Runtime σ) (cfg : BuildConfig)
    (ret_handle args : Nat) (s : σ) :
    (∀ e ∈ (sdktyche.trusted_main c rt cfg ret_handle args s).trace,
      e.isMonitorCall = false) ∧
    (∀ e ∈ (trusted_runtime.trusted_main rt ret_handle args s).trace,
      e.isMonitorCall = false) ∧
    (∀ f s1 r s2, rt.trusted_entry ⟨ret_handle, args⟩ s = some (f, s1) →
      (sdktyche.gate_call c rt cfg f s1).result = some (r, s2) →
        (sdktyche.trusted_main c rt cfg ret_handle args s).result = some ((), s2) ∧
        (sdktyche.trusted_main c rt cfg ret_handle args s).trace =
          .trusted_entry ⟨ret_handle, args⟩ :: .gate_call f ::
            (sdktyche.gate_call c rt cfg f s1).trace) ∧
    (∀ f s1 r f2 s2, rt.trusted_entry ⟨ret_handle, args⟩ s = some (f, s1) →
      rt.bricks_gate_call f s1 = some (r, f2, s2) →
        (trusted_runtime.trusted_main rt ret_handle args s).result = some ((), s2) ∧
        (trusted_runtime.trusted_main rt ret_handle args s).trace =
          [.trusted_entry ⟨ret_handle, args⟩, .bricks_gate_call f]) := by
  refine ⟨?_, ?_, ?_, ?_⟩
  · intro e he
    unfold sdktyche.trusted_main at he
    cases h : rt.trusted_entry ⟨ret_handle, args⟩ s with
    | none =>
      simp only [h, List.mem_singleton] at he
      subst he; rfl
    | some p =>
      obtain ⟨f1, s1⟩ := p
      simp only [h, List.mem_cons] at he
      rcases he with he | he | he
      · subst he; rfl
      · subst he; rfl
      · exact (gate_call_trace_no_entry_no_gate c rt cfg f1 s1 e he).2.2
  · intro e he
    unfold trusted_runtime.trusted_main at he
    cases h : rt.trusted_entry ⟨ret_handle, args⟩ s with
    | none =>
      simp only [h, List.mem_singleton] at he
      subst he; rfl
    | some p =>
      obtain ⟨f1, s1⟩ := p
      cases hb : rt.bricks_gate_call f1 s1 with
      | none =>
        simp only [h, hb, List.mem_cons, List.mem_singleton] at he
        rcases he with he | he | he
        · subst he; rfl
        · subst he; rfl
        · cases he
      | some q =>
        obtain ⟨r, f2, s2⟩ := q
        simp only [h, hb, List.mem_cons, List.mem_singleton] at he
        rcases he with he | he | he
        · subst he; rfl
        · subst he; rfl
        · cases he
  · intro f s1 r s2 h hg
    simp [sdktyche.trusted_main, h, hg]
  · intro f s1 r f2 s2 h hg
    simp [trusted_runtime.trusted_main, h, hg]

/-- C8, amended, on a runtime whose gates hand control back. -/
theorem trusted_main_falls_through_witness :
    (exRuntime id 0).trusted_entry ⟨5, 9⟩ 0 = some (⟨5, 9⟩, 1) ∧
    (sdktyche.gate_call exConsts (exRuntime id 0) ⟨true, false⟩ ⟨5, 9⟩ 1).result =
      some ((0, ⟨5, 9⟩), 2) ∧
    ((sdktyche.trusted_main exConsts (exRuntime id 0) ⟨true, false⟩ 5 9 0).result =
        some ((), 2) ∧
      (sdktyche.trusted_main exConsts (exRuntime id 0) ⟨true, false⟩ 5 9 0).trace =
        .trusted_entry ⟨5, 9⟩ :: .gate_call ⟨5, 9⟩ ::
          (sdktyche.gate_call exConsts (exRuntime id 0) ⟨true, false⟩ ⟨5, 9⟩ 1).trace) ∧
    (exRuntime id 0).bricks_gate_call ⟨5, 9⟩ 1 = some (0, ⟨5, 9⟩, 2) ∧
    ((trusted_runtime.trusted_main (exRuntime id 0) 5 9 0).result = some ((), 2) ∧
      (trusted_runtime.trusted_main (exRuntime id 0) 5 9 0).trace =
        [.trusted_entry ⟨5, 9⟩, .bricks_gate_call ⟨5, 9⟩]) :=
  ⟨rfl, by decide,
    (trusted_main_falls_through exConsts (exRuntime id 0) ⟨true, false⟩ 5 9 0).2.2.1
      ⟨5, 9⟩ 1 (0, ⟨5, 9⟩) 2 rfl (by decide),
    rfl,
    (trusted_main_falls_through exConsts (exRuntime id 0) ⟨true, false⟩ 5 9 0).2.2.2
      ⟨5, 9⟩ 1 0 ⟨5, 9⟩ 2 rfl rfl⟩

/-! ## Opening and closing a session -/

/-- C9: `tyche_open` returns `SUCCESS` if and only if the handle is non-null and
`create_enclave(handle)` returns `SUCCESS`; it calls `create_enclave` at most
once, only with the handle it was given, and never with a null handle (on a
non-null handle it calls it exactly once, and the world is left as that call
left it; on a null handle the world is untouched). -/
theorem tyche_open_iff_create (c : Consts) (k : Kernel σ) (inode file : Nat) (s : σ)
    (hne : c.SUCCESS ≠ c.FAILURE) :
    ((tyche_open c k inode file s).ret = c.SUCCESS ↔
      file ≠ 0 ∧ (k.create_enclave file s).1 = c.SUCCESS) ∧
    ((tyche_open c k inode file s).trace.filter Event.isEnclaveCall).length ≤ 1 ∧
    (∀ h r, Event.create_enclave h r ∈ (tyche_open c k inode file s).trace →
      h = file ∧ h ≠ 0 ∧ r = (k.create_enclave file s).1) ∧
    (file ≠ 0 → (tyche_open c k inode file s).trace.filter Event.isEnclaveCall =
      [.create_enclave file (k.create_enclave file s).1]) ∧
    (file = 0 → (tyche_open c k inode file s).trace.filter Event.isEnclaveCall = []) ∧
    (file ≠ 0 → (tyche_open c k inode file s).state = (k.create_enclave file s).2) ∧
    (file = 0 → (tyche_open c k inode file s).state = s) := by
  unfold tyche_open
  by_cases hf : file = 0
  · simp [hf, Ne.symm hne, Event.isEnclaveCall, Event.isEnclaveOp]
  · by_cases hr : (k.create_enclave file s).1 = c.SUCCESS
    · simp [hf, hr, Event.isEnclaveCall, Event.isEnclaveOp]
    · simp [hf, hr, Ne.symm hne, Event.isEnclaveCall, Event.isEnclaveOp]

/-- C9 on a kernel whose `create_enclave` succeeds, for the handle `7`. -/
theorem tyche_open_iff_create_witness :
    exConsts.SUCCESS ≠ exConsts.FAILURE ∧
    (7 ≠ 0 ∧ ((exKernel 0 0).create_enclave 7 0).1 = exConsts.SUCCESS) ∧
    (tyche_open exConsts (exKernel 0 0) 3 7 0).ret = exConsts.SUCCESS ∧
    (tyche_open exConsts (exKernel 0 0) 3 7 0).trace.filter Event.isEnclaveCall =
      [.create_enclave 7 ((exKernel 0 0).create_enclave 7 0).1] ∧
    (tyche_open exConsts (exKernel 0 0) 3 7 0).state = 1 :=
  ⟨by decide, by decide,
    (tyche_open_iff_create exConsts (exKernel 0 0) 3 7 0 (by decide)).1.2 (by decide),
    (tyche_open_iff_create exConsts (exKernel 0 0) 3 7 0 (by decide)).2.2.2.1 (by decide),
    (tyche_open_iff_create exConsts (exKernel 0 0) 3 7 0 (by decide)).2.2.2.2.2.1
      (by decide)⟩

/-- C10: for every handle, `tyche_close` calls `delete_enclave` exactly once, on
that handle and in the world it was entered in, calls no other function of
`enclaves.h`, leaves the world exactly as that `delete_enclave` left it, and
returns `SUCCESS` if and only if `delete_enclave` returned `SUCCESS` (and
`FAILURE` otherwise). -/
theorem tyche_close_iff_delete (c : Consts) (k : Kernel σ) (inode handle : Nat) (s : σ)
    (hne : c.SUCCESS ≠ c.FAILURE) :
    (tyche_close c k inode handle s).trace.filter Event.isEnclaveCall =
      [.delete_enclave handle (k.delete_enclave handle s).1] ∧
    (tyche_close c k inode handle s).state = (k.delete_enclave handle s).2 ∧
    ((tyche_close c k inode handle s).ret = c.SUCCESS ↔
      (k.delete_enclave handle s).1 = c.SUCCESS) ∧
    ((tyche_close c k inode handle s).ret = c.FAILURE ↔
      (k.delete_enclave handle s).1 ≠ c.SUCCESS) := by
  unfold tyche_close
  by_cases hr : (k.delete_enclave handle s).1 = c.SUCCESS
  · simp [hr, hne, Event.isEnclaveCall, Event.isEnclaveOp]
  · simp [hr, Ne.symm hne, Event.isEnclaveCall, Event.isEnclaveOp]

/-- C10 on the null handle, with a `delete_enclave` that fails: the one call was
made (the world counts it) and `FAILURE` is returned. -/
theorem tyche_close_iff_delete_witness :
    exConsts.SUCCESS ≠ exConsts.FAILURE ∧
    (tyche_close exConsts (exKernel (-1) 0) 3 0 0).trace.filter Event.isEnclaveCall =
      [.delete_enclave 0 (-1)] ∧
    (tyche_close exConsts (exKernel (-1) 0) 3 0 0).state = 1 ∧
    ((tyche_close exConsts (exKernel (-1) 0) 3 0 0).ret = exConsts.SUCCESS ↔
      ((exKernel (-1) 0).delete_enclave 0 0).1 = exConsts.SUCCESS) ∧
    ((tyche_close exConsts (exKernel (-1) 0) 3 0 0).ret = exConsts.FAILURE ↔
      ((exKernel (-1) 0).delete_enclave 0 0).1 ≠ exConsts.SUCCESS) :=
  ⟨by decide, tyche_close_iff_delete exConsts (exKernel (-1) 0) 3 0 0 (by decide)⟩

/-! ## Memory mapping and the physical-offset query -/

/-- C11: for every file and vma, `tyche_mmap(file, vma)` makes exactly one call,
`mmap_segment(file, vma)` with the arguments it was given and in the world it was
entered in, and returns exactly the value and leaves exactly the world that call
produced; so it fails exactly when `mmap_segment` fails and adds no check or
mapping of its own.  With `mmap_segment` as the specification gives it,
`tyche_mmap` therefore returns `FAILURE` when no domain is bound to the handle and
when the domain is not yet committed, returns `SUCCESS` exactly when the domain is
committed and the monitor carries out the mapping, and never changes the state of
any domain. -/
theorem tyche_mmap_is_mmap_segment (c : Consts) (k : Kernel σ) (env : Surroundings)
    (file vma : Nat) (s : σ) (w : Sessions) (hne : c.SUCCESS ≠ c.FAILURE) :
    ((tyche_mmap k file vma s).trace =
        [.mmap_segment file vma (k.mmap_segment file vma s).1] ∧
      (tyche_mmap k file vma s).ret = (k.mmap_segment file vma s).1 ∧
      (tyche_mmap k file vma s).state = (k.mmap_segment file vma s).2 ∧
      ((tyche_mmap k file vma s).ret ≠ c.SUCCESS ↔ (k.mmap_segment file vma s).1 ≠ c.SUCCESS)) ∧
    (w.domain file = none →
      (tyche_mmap (specKernel c env) file vma w).ret = c.FAILURE) ∧
    (w.isSealed file = false →
      (tyche_mmap (specKernel c env) file vma w).ret = c.FAILURE) ∧
    ((tyche_mmap (specKernel c env) file vma w).ret = c.SUCCESS ↔
      w.isSealed file = true ∧ env.monitor_accepts w.tick = true) ∧
    (tyche_mmap (specKernel c env) file vma w).state.domain = w.domain ∧
    (tyche_mmap (specKernel c env) file vma w).trace =
      [.mmap_segment file vma (tyche_mmap (specKernel c env) file vma w).ret] := by
  refine ⟨⟨rfl, rfl, rfl, Iff.rfl⟩, ?_, ?_, ?_, ?_, rfl⟩
  · intro hnone
    have hs : w.isSealed file = false := by simp [Sessions.isSealed, hnone]
    simp [tyche_mmap, specKernel, hs]
  · intro hs
    simp [tyche_mmap, specKernel, hs]
  · simp only [tyche_mmap, specKernel]
    split_ifs with hc
    · simp [hc.1, hc.2]
    · constructor
      · intro hf
        exact absurd hf (Ne.symm hne)
      · intro hc2
        exact absurd hc2 hc
  · simp only [tyche_mmap, specKernel]
    split_ifs <;> rfl

/-- C11 on three session tables: no domain bound to handle `7`, a domain bound but
only created, and a sealed domain, where the mapping succeeds. -/
theorem tyche_mmap_is_mmap_segment_witness :
    exConsts.SUCCESS ≠ exConsts.FAILURE ∧
    (noSessions.domain 7 = none ∧
      (tyche_mmap (specKernel exConsts exSurroundings) 7 1 noSessions).ret =
        exConsts.FAILURE) ∧
    (Sessions.isSealed ⟨fun x => if x = 7 then some .Created else none, 1⟩ 7 = false ∧
      (tyche_mmap (specKernel exConsts exSurroundings) 7 1
        ⟨fun x => if x = 7 then some .Created else none, 1⟩).ret = exConsts.FAILURE) ∧
    ((Sessions.isSealed ⟨fun x => if x = 7 then some .Sealed else none, 3⟩ 7 = true ∧
        exSurroundings.monitor_accepts 3 = true) ∧
      (tyche_mmap (specKernel exConsts exSurroundings) 7 1
        ⟨fun x => if x = 7 then some .Sealed else none, 3⟩).ret = exConsts.SUCCESS) :=
  ⟨by decide,
    ⟨rfl, (tyche_mmap_is_mmap_segment exConsts (exKernel 0 0) exSurroundings 7 1 0 noSessions
      (by decide)).2.1 rfl⟩,
    ⟨by decide, (tyche_mmap_is_mmap_segment exConsts (exKernel 0 0) exSurroundings 7 1 0
      ⟨fun x => if x = 7 then some .Created else none, 1⟩ (by decide)).2.2.1 (by decide)⟩,
    ⟨by decide, (tyche_mmap_is_mmap_segment exConsts (exKernel 0 0) exSurroundings 7 1 0
      ⟨fun x => if x = 7 then some .Sealed else none, 3⟩ (by decide)).2.2.2.1.2 (by decide)⟩⟩

/-- C14: when a `TYCHE_ENCLAVE_GET_PHYSOFFSET` request succeeds, the only copy made
is one `copy_to_user` of `sizeof(msg_enclave_info_t)` bytes to the user address
`arg`, of the structure whose `physoffset` is the value `get_physoffset_enclave`
left in it and whose other field is `UNINIT_USIZE`; that copy was complete (no byte
left uncopied), it was made in the world `get_physoffset_enclave` left, and the
world it produced is the one `tyche_ioctl` leaves.  `copy_from_user` is not
called. -/
theorem tyche_ioctl_physoffset_payload (c : Consts) (k : Kernel σ) (handle cmd arg : Nat)
    (s : σ) (hne : c.SUCCESS ≠ c.FAILURE) (hcmd : cmd = c.TYCHE_ENCLAVE_GET_PHYSOFFSET)
    (hok : (tyche_ioctl c k handle cmd arg s).ret = c.SUCCESS) :
    (tyche_ioctl c k handle cmd arg s).trace =
      [.get_physoffset_enclave handle c.SUCCESS,
        .copy_to_user arg
          ⟨c.UNINIT_USIZE, (k.get_physoffset_enclave handle c.UNINIT_USIZE s).2.1⟩
          (c.sizeof .info) 0] ∧
    (k.get_physoffset_enclave handle c.UNINIT_USIZE s).1 = c.SUCCESS ∧
    (k.copy_to_user arg
        ⟨c.UNINIT_USIZE, (k.get_physoffset_enclave handle c.UNINIT_USIZE s).2.1⟩
        (c.sizeof .info) (k.get_physoffset_enclave handle c.UNINIT_USIZE s).2.2).1 = 0 ∧
    (tyche_ioctl c k handle cmd arg s).state =
      (k.copy_to_user arg
        ⟨c.UNINIT_USIZE, (k.get_physoffset_enclave handle c.UNINIT_USIZE s).2.1⟩
        (c.sizeof .info) (k.get_physoffset_enclave handle c.UNINIT_USIZE s).2.2).2 ∧
    ∀ e ∈ (tyche_ioctl c k handle cmd arg s).trace, e.isCopyFromUser = false := by
  subst hcmd
  unfold tyche_ioctl at hok ⊢
  simp only [if_true] at hok ⊢
  by_cases hg : (k.get_physoffset_enclave handle c.UNINIT_USIZE s).1 = c.SUCCESS
  · by_cases hu : (k.copy_to_user arg
        ⟨c.UNINIT_USIZE, (k.get_physoffset_enclave handle c.UNINIT_USIZE s).2.1⟩
        (c.sizeof .info) (k.get_physoffset_enclave handle c.UNINIT_USIZE s).2.2).1 = 0
    · simp [hg, hu, Event.isCopyFromUser]
    · simp [hg, hu, Ne.symm hne] at hok
  · simp [hg, Ne.symm hne] at hok

/-- C14 on a kernel whose `get_physoffset_enclave` writes `4096`: the structure
`(2 ^ 64 - 1, 4096)` is copied out, the world has counted both calls, and, on the
kernel whose world is user memory, that structure is what user memory holds at
the address `100`. -/
theorem tyche_ioctl_physoffset_payload_witness :
    exConsts.SUCCESS ≠ exConsts.FAILURE ∧
    (tyche_ioctl exConsts (exKernel 0 0) 7 1 100 0).ret = exConsts.SUCCESS ∧
    (tyche_ioctl exConsts (exKernel 0 0) 7 1 100 0).trace =
      [.get_physoffset_enclave 7 0, .copy_to_user 100 ⟨2 ^ 64 - 1, 4096⟩ 16 0] ∧
    (tyche_ioctl exConsts (exKernel 0 0) 7 1 100 0).state = 2 ∧
    (tyche_ioctl exConsts exUserKernel 7 1 100 []).state = [(100, ⟨2 ^ 64 - 1, 4096⟩)] ∧
    ∀ e ∈ (tyche_ioctl exConsts (exKernel 0 0) 7 1 100 0).trace, e.isCopyFromUser = false :=
  ⟨by decide, by decide,
    (tyche_ioctl_physoffset_payload exConsts (exKernel 0 0) 7 1 100 0 (by decide) rfl
      (by decide)).1,
    (tyche_ioctl_physoffset_payload exConsts (exKernel 0 0) 7 1 100 0 (by decide) rfl
      (by decide)).2.2.2.1,
    (tyche_ioctl_physoffset_payload exConsts exUserKernel 7 1 100 [] (by decide) rfl
      (by decide)).2.2.2.1,
    (tyche_ioctl_physoffset_payload exConsts (exKernel 0 0) 7 1 100 0 (by decide) rfl
      (by decide)).2.2.2.2⟩

/-! ## The value `gate_call` returns -/

/-- An `int` survives the passage through the `usize` variable `result`. -/
theorem int_of_usize_of_int (r : Int) (hlo : -2 ^ 31 ≤ r) (hhi : r < 2 ^ 31) :
    int_of_usize (usize_of_int r) = r := by
  unfold int_of_usize usize_of_int
  split_ifs with h <;> omega

/-- C16: `gate_call` returns exactly the value the architecture's assembly gate
returned, the gate being called once with pointers to the frame's `ret_handle` and
`args` (`asm_call_gate` when x86 is selected, else `riscv_asm_call_gate` when RISC-V
is): every `int` result `r` comes back as `r` after being stored in the 64-bit
unsigned `result` and converted to `int`.  When neither architecture is selected,
`gate_call` returns `FAILURE` and calls no gate. -/
theorem gate_call_returns_gate_value (c : Consts) (rt : Runtime σ) (cfg : BuildConfig)
    (frame : frame_t) (s : σ) :
    (∀ r : Int, -2 ^ 31 ≤ r → r < 2 ^ 31 → int_of_usize (usize_of_int r) = r) ∧
    (cfg.X86 = true → ∀ r h a s1,
      rt.asm_call_gate frame.ret_handle frame.args s = some (r, h, a, s1) →
      -2 ^ 31 ≤ r → r < 2 ^ 31 →
        (sdktyche.gate_call c rt cfg frame s).result = some ((r, ⟨h, a⟩), s1) ∧
        (sdktyche.gate_call c rt cfg frame s).trace =
          [.asm_call_gate frame.ret_handle frame.args]) ∧
    (cfg.X86 = false → cfg.RISCV = true → ∀ r h a s1,
      rt.riscv_asm_call_gate frame.ret_handle frame.args s = some (r, h, a, s1) →
      -2 ^ 31 ≤ r → r < 2 ^ 31 →
        (sdktyche.gate_call c rt cfg frame s).result = some ((r, ⟨h, a⟩), s1) ∧
        (sdktyche.gate_call c rt cfg frame s).trace =
          [.riscv_asm_call_gate frame.ret_handle frame.args]) ∧
    (cfg.X86 = false → cfg.RISCV = false → -2 ^ 31 ≤ c.FAILURE → c.FAILURE < 2 ^ 31 →
        (sdktyche.gate_call c rt cfg frame s).result = some ((c.FAILURE, frame), s) ∧
        (sdktyche.gate_call c rt cfg frame s).trace = []) := by
  refine ⟨int_of_usize_of_int, ?_, ?_, ?_⟩
  · intro hx r h a s1 hg hlo hhi
    simp [sdktyche.gate_call, hx, hg, int_of_usize_of_int r hlo hhi]
  · intro hx hr r h a s1 hg hlo hhi
    simp [sdktyche.gate_call, hx, hr, hg, int_of_usize_of_int r hlo hhi]
  · intro hx hr hlo hhi
    simp [sdktyche.gate_call, hx, hr, int_of_usize_of_int c.FAILURE hlo hhi]

/-- C16 at the gate result `-3` on x86 and on RISC-V, and with no architecture
selected (`FAILURE = -1`). -/
theorem gate_call_returns_gate_value_witness :
    (int_of_usize (usize_of_int (-3)) = -3) ∧
    ((sdktyche.gate_call exConsts (exRuntime id (-3)) ⟨true, true⟩ ⟨5, 9⟩ 0).result =
        some ((-3, ⟨5, 9⟩), 1) ∧
      (sdktyche.gate_call exConsts (exRuntime id (-3)) ⟨true, true⟩ ⟨5, 9⟩ 0).trace =
        [.asm_call_gate 5 9]) ∧
    ((sdktyche.gate_call exConsts (exRuntime id (-3)) ⟨false, true⟩ ⟨5, 9⟩ 0).result =
        some ((-3, ⟨5, 9⟩), 1) ∧
      (sdktyche.gate_call exConsts (exRuntime id (-3)) ⟨false, true⟩ ⟨5, 9⟩ 0).trace =
        [.riscv_asm_call_gate 5 9]) ∧
    ((sdktyche.gate_call exConsts (exRuntime id (-3)) ⟨false, false⟩ ⟨5, 9⟩ 0).result =
        some ((exConsts.FAILURE, ⟨5, 9⟩), 0) ∧
      (sdktyche.gate_call exConsts (exRuntime id (-3)) ⟨false, false⟩ ⟨5, 9⟩ 0).trace = []) :=
  ⟨(gate_call_returns_gate_value exConsts (exRuntime id (-3)) ⟨true, true⟩ ⟨5, 9⟩ 0).1 (-3)
      (by decide) (by decide),
    (gate_call_returns_gate_value exConsts (exRuntime id (-3)) ⟨true, true⟩ ⟨5, 9⟩ 0).2.1 rfl
      (-3) 5 9 1 rfl (by decide) (by decide),
    (gate_call_returns_gate_value exConsts (exRuntime id (-3)) ⟨false, true⟩ ⟨5, 9⟩ 0).2.2.1
      rfl rfl (-3) 5 9 1 rfl (by decide) (by decide),
    (gate_call_returns_gate_value exConsts (exRuntime id (-3)) ⟨false, false⟩ ⟨5, 9⟩ 0).2.2.2
      rfl rfl (by decide) (by decide)⟩

/-! ## Looking up the shared region -/

/-- The loop finds nothing exactly when no element has the wanted type. -/
theorem find_default_shared_loop_none (K : Nat) (l : List domain_shared_memory_t) :
    find_default_shared_loop K l = none ↔ ∀ e ∈ l, e.segment.p_type ≠ K := by
  induction l with
  | nil => simp [find_default_shared_loop]
  | cons x xs ih =>
    unfold find_default_shared_loop
    by_cases hx : x.segment.p_type = K
    · simp [hx]
    · simp [hx, ih]

/-- The loop stops at the first element of the wanted type. -/
theorem find_default_shared_loop_first (K : Nat) (pre : List domain_shared_memory_t)
    (x : domain_shared_memory_t) (post : List domain_shared_memory_t)
    (hpre : ∀ e ∈ pre, e.segment.p_type ≠ K) (hx : x.segment.p_type = K) :
    find_default_shared_loop K (pre ++ x :: post) = some x.untrusted_vaddr := by
  induction pre with
  | nil => simp [find_default_shared_loop, hx]
  | cons y ys ih =>
    have hy : y.segment.p_type ≠ K := hpre y (by simp)
    have hys : ∀ e ∈ ys, e.segment.p_type ≠ K := fun e he => hpre e (by simp [he])
    simp [find_default_shared_loop, hy, ih hys]

/-- C17: `find_default_shared` returns `NULL` when the enclave pointer is `NULL` and
when no element of `enclave->shared_regions` has segment type `KERNEL_SHARED`;
otherwise it returns the `untrusted_vaddr` of the first element, in list order,
whose segment type is `KERNEL_SHARED`; the enclave and its list are left as they
were. -/
theorem find_default_shared_first_kernel_shared (K : Nat) (enclave : Option tyche_domain_t) :
    (enclave = none → (find_default_shared K enclave).ret = 0) ∧
    (∀ d, enclave = some d → (∀ e ∈ d.shared_regions, e.segment.p_type ≠ K) →
      (find_default_shared K enclave).ret = 0) ∧
    (∀ d pre x post, enclave = some d → d.shared_regions = pre ++ x :: post →
      (∀ e ∈ pre, e.segment.p_type ≠ K) → x.segment.p_type = K →
        (find_default_shared K enclave).ret = x.untrusted_vaddr) ∧
    (find_default_shared K enclave).enclave = enclave := by
  refine ⟨?_, ?_, ?_, ?_⟩
  · intro h
    subst h
    rfl
  · intro d h hall
    subst h
    simp [find_default_shared, (find_default_shared_loop_none K d.shared_regions).2 hall]
  · intro d pre x post h hl hpre hx
    subst h
    simp [find_default_shared, hl, find_default_shared_loop_first K pre x post hpre hx]
  · unfold find_default_shared
    repeat' split
    all_goals rfl

/-- C17 on the null pointer, on a list without a `KERNEL_SHARED` element, and on a
list whose second and third elements are `KERNEL_SHARED` (`KERNEL_SHARED = 3`). -/
theorem find_default_shared_first_kernel_shared_witness :
    (find_default_shared 3 none).ret = 0 ∧
    (find_default_shared 3 (some ⟨[⟨⟨1⟩, 4096⟩, ⟨⟨2⟩, 8192⟩]⟩)).ret = 0 ∧
    (find_default_shared 3 (some ⟨[⟨⟨1⟩, 4096⟩, ⟨⟨3⟩, 8192⟩, ⟨⟨3⟩, 12288⟩]⟩)).ret =
      (⟨⟨3⟩, 8192⟩ : domain_shared_memory_t).untrusted_vaddr :=
  ⟨(find_default_shared_first_kernel_shared 3 none).1 rfl,
    (find_default_shared_first_kernel_shared 3 (some ⟨[⟨⟨1⟩, 4096⟩, ⟨⟨2⟩, 8192⟩]⟩)).2.1 _ rfl
      (by decide),
    (find_default_shared_first_kernel_shared 3
      (some ⟨[⟨⟨1⟩, 4096⟩, ⟨⟨3⟩, 8192⟩, ⟨⟨3⟩, 12288⟩]⟩)).2.2.1 _ [⟨⟨1⟩, 4096⟩] ⟨⟨3⟩, 8192⟩
        [⟨⟨3⟩, 12288⟩] rfl rfl (by decide) rfl⟩

/-! ## Registering the driver -/

/-- C15: `tyche_register` returns `SUCCESS` if and only if `alloc_chrdev_region`
(result not negative), `cdev_add` (result not negative), `class_create` (result not
`NULL`) and `device_create` (result not `NULL`) all succeed, and `init_enclaves` is
called, once, exactly in that case.  If `alloc_chrdev_region` fails it is the only
function called.  `unregister_chrdev_region` is called, once, exactly on the later
failures, `class_destroy`, once, exactly when `device_create` is the step that
failed, and `cdev_del` never.  The calls are carried out: `dev` holds what
`alloc_chrdev_region` stored, `dev_class` what `class_create` returned once it was
reached, and the world left behind is, on success, the one `init_enclaves` made of
the world after `device_create`, and on each failure the one the clean-up calls of
that failure made (none, `unregister_chrdev_region(dev, 1)`, or
`class_destroy(dev_class)` followed by `unregister_chrdev_region(dev, 1)`). -/
theorem tyche_register_outcomes (c : Consts) (k : Linux σ) (g : Globals) (s : σ)
    (hne : c.SUCCESS ≠ c.FAILURE) :
    let a := k.alloc_chrdev_region g.dev 0 1 device_region s
    let b := k.cdev_add a.2.1 1 (k.cdev_init a.2.2)
    let cl := k.class_create k.THIS_MODULE device_class b.2
    let d := k.device_create cl.1 0 a.2.1 0 device_name cl.2
    let out := tyche_register c k g s
    (out.ret = c.SUCCESS ↔ 0 ≤ a.1 ∧ 0 ≤ b.1 ∧ cl.1 ≠ 0 ∧ d.1 ≠ 0) ∧
    (out.ret = c.FAILURE ↔ ¬ (0 ≤ a.1 ∧ 0 ≤ b.1 ∧ cl.1 ≠ 0 ∧ d.1 ≠ 0)) ∧
    ((out.trace.filter RegEvent.isInitEnclaves).length =
      if 0 ≤ a.1 ∧ 0 ≤ b.1 ∧ cl.1 ≠ 0 ∧ d.1 ≠ 0 then 1 else 0) ∧
    (a.1 < 0 → out.trace.filter RegEvent.isCall =
      [.alloc_chrdev_region 0 1 device_region a.1 a.2.1]) ∧
    ((out.trace.filter RegEvent.isUnregisterRegion).length =
      if 0 ≤ a.1 ∧ ¬ (0 ≤ b.1 ∧ cl.1 ≠ 0 ∧ d.1 ≠ 0) then 1 else 0) ∧
    ((out.trace.filter RegEvent.isClassDestroy).length =
      if 0 ≤ a.1 ∧ 0 ≤ b.1 ∧ cl.1 ≠ 0 ∧ d.1 = 0 then 1 else 0) ∧
    (out.trace.filter RegEvent.isCdevDel).length = 0 ∧
    out.globals.dev = a.2.1 ∧
    (out.globals.dev_class = if 0 ≤ a.1 ∧ 0 ≤ b.1 then cl.1 else g.dev_class) ∧
    (0 ≤ a.1 → 0 ≤ b.1 → cl.1 ≠ 0 → d.1 ≠ 0 → out.state = k.init_enclaves d.2) ∧
    (a.1 < 0 → out.state = a.2.2) ∧
    (0 ≤ a.1 → b.1 < 0 → out.state = k.unregister_chrdev_region a.2.1 1 b.2) ∧
    (0 ≤ a.1 → 0 ≤ b.1 → cl.1 = 0 →
      out.state = k.unregister_chrdev_region a.2.1 1 cl.2) ∧
    (0 ≤ a.1 → 0 ≤ b.1 → cl.1 ≠ 0 → d.1 = 0 →
      out.state = k.unregister_chrdev_region a.2.1 1 (k.class_destroy cl.1 d.2)) := by
  intro a b cl d out
  by_cases ha : a.1 < 0
  · have e1 : (a.1 < 0) = True := eq_true ha
    have e2 : (0 ≤ a.1) = False := eq_false (by omega)
    simp only [a, b, cl, d, out, tyche_register] at e1 e2 ⊢
    simp [e1, e2, Ne.symm hne, RegEvent.isInitEnclaves, RegEvent.isCall,
      RegEvent.isUnregisterRegion, RegEvent.isClassDestroy, RegEvent.isCdevDel]
  · have e1 : (a.1 < 0) = False := eq_false ha
    have e2 : (0 ≤ a.1) = True := eq_true (by omega)
    by_cases hb : b.1 < 0
    · have e3 : (b.1 < 0) = True := eq_true hb
      have e4 : (0 ≤ b.1) = False := eq_false (by omega)
      simp only [a, b, cl, d, out, tyche_register] at e1 e2 e3 e4 ⊢
      simp [e1, e2, e3, e4, Ne.symm hne, RegEvent.isInitEnclaves, RegEvent.isCall,
        RegEvent.isUnregisterRegion, RegEvent.isClassDestroy, RegEvent.isCdevDel]
    · have e3 : (b.1 < 0) = False := eq_false hb
      have e4 : (0 ≤ b.1) = True := eq_true (by omega)
      by_cases hc : cl.1 = 0
      · simp only [a, b, cl, d, out, tyche_register] at e1 e2 e3 e4 hc ⊢
        simp [e1, e2, e3, e4, hc, Ne.symm hne, RegEvent.isInitEnclaves, RegEvent.isCall,
          RegEvent.isUnregisterRegion, RegEvent.isClassDestroy, RegEvent.isCdevDel]
      · by_cases hd : d.1 = 0
        · simp only [a, b, cl, d, out, tyche_register] at e1 e2 e3 e4 hc hd ⊢
          simp [e1, e2, e3, e4, hc, hd, Ne.symm hne, RegEvent.isInitEnclaves,
            RegEvent.isCall, RegEvent.isUnregisterRegion, RegEvent.isClassDestroy,
            RegEvent.isCdevDel]
        · simp only [a, b, cl, d, out, tyche_register] at e1 e2 e3 e4 hc hd ⊢
          simp [e1, e2, e3, e4, hc, hd, hne, RegEvent.isInitEnclaves,
            RegEvent.isCall, RegEvent.isUnregisterRegion, RegEvent.isClassDestroy,
            RegEvent.isCdevDel]

/-- C15 where every step succeeds, where `device_create` returns `NULL`, where
`cdev_add` fails and where `alloc_chrdev_region` fails, on kernel functions whose
world lists the calls that were really carried out. -/
theorem tyche_register_outcomes_witness :
    exConsts.SUCCESS ≠ exConsts.FAILURE ∧
    (tyche_register exConsts (exLinuxLog 0 0 800 900) ⟨0, 0⟩ []).ret = exConsts.SUCCESS ∧
    ((tyche_register exConsts (exLinuxLog 0 0 800 900) ⟨0, 0⟩ []).trace.filter
      RegEvent.isInitEnclaves).length = 1 ∧
    (tyche_register exConsts (exLinuxLog 0 0 800 900) ⟨0, 0⟩ []).globals.dev =
      511 * 2 ^ 20 ∧
    (tyche_register exConsts (exLinuxLog 0 0 800 900) ⟨0, 0⟩ []).globals.dev_class = 800 ∧
    (tyche_register exConsts (exLinuxLog 0 0 800 900) ⟨0, 0⟩ []).state =
      [.alloc_chrdev_region 0 1 "tyche" 0 (511 * 2 ^ 20), .cdev_init,
        .cdev_add (511 * 2 ^ 20) 1 0, .class_create 64 "tyche" 800,
        .device_create 800 0 (511 * 2 ^ 20) 0 "tyche" 900, .init_enclaves] ∧
    (tyche_register exConsts (exLinuxLog 0 0 800 0) ⟨0, 0⟩ []).ret = exConsts.FAILURE ∧
    ((tyche_register exConsts (exLinuxLog 0 0 800 0) ⟨0, 0⟩ []).trace.filter
      RegEvent.isCdevDel).length = 0 ∧
    (tyche_register exConsts (exLinuxLog 0 0 800 0) ⟨0, 0⟩ []).state =
      [.alloc_chrdev_region 0 1 "tyche" 0 (511 * 2 ^ 20), .cdev_init,
        .cdev_add (511 * 2 ^ 20) 1 0, .class_create 64 "tyche" 800,
        .device_create 800 0 (511 * 2 ^ 20) 0 "tyche" 0, .class_destroy 800,
        .unregister_chrdev_region (511 * 2 ^ 20) 1] ∧
    (tyche_register exConsts (exLinuxLog 0 (-1) 800 900) ⟨0, 0⟩ []).state =
      [.alloc_chrdev_region 0 1 "tyche" 0 (511 * 2 ^ 20), .cdev_init,
        .cdev_add (511 * 2 ^ 20) 1 (-1), .unregister_chrdev_region (511 * 2 ^ 20) 1] ∧
    (tyche_register exConsts (exLinuxLog (-1) 0 800 900) ⟨0, 0⟩ []).trace.filter
        RegEvent.isCall =
      [.alloc_chrdev_region 0 1 device_region (-1) (511 * 2 ^ 20)] ∧
    (tyche_register exConsts (exLinuxLog (-1) 0 800 900) ⟨0, 0⟩ []).state =
      [.alloc_chrdev_region 0 1 "tyche" (-1) (511 * 2 ^ 20)] :=
  ⟨by decide,
    (tyche_register_outcomes exConsts (exLinuxLog 0 0 800 900) ⟨0, 0⟩ [] (by decide)).1.2
      (by decide),
    (tyche_register_outcomes exConsts (exLinuxLog 0 0 800 900) ⟨0, 0⟩ [] (by decide)).2.2.1,
    (tyche_register_outcomes exConsts (exLinuxLog 0 0 800 900) ⟨0, 0⟩ []
      (by decide)).2.2.2.2.2.2.2.1,
    (tyche_register_outcomes exConsts (exLinuxLog 0 0 800 900) ⟨0, 0⟩ []
      (by decide)).2.2.2.2.2.2.2.2.1,
    (tyche_register_outcomes exConsts (exLinuxLog 0 0 800 900) ⟨0, 0⟩ []
      (by decide)).2.2.2.2.2.2.2.2.2.1 (by decide) (by decide) (by decide) (by decide),
    (tyche_register_outcomes exConsts (exLinuxLog 0 0 800 0) ⟨0, 0⟩ [] (by decide)).2.1.2
      (by decide),
    (tyche_register_outcomes exConsts (exLinuxLog 0 0 800 0) ⟨0, 0⟩ []
      (by decide)).2.2.2.2.2.2.1,
    (tyche_register_outcomes exConsts (exLinuxLog 0 0 800 0) ⟨0, 0⟩ []
      (by decide)).2.2.2.2.2.2.2.2.2.2.2.2.2 (by decide) (by decide) (by decide) (by decide),
    (tyche_register_outcomes exConsts (exLinuxLog 0 (-1) 800 900) ⟨0, 0⟩ []
      (by decide)).2.2.2.2.2.2.2.2.2.2.2.1 (by decide) (by decide),
    (tyche_register_outcomes exConsts (exLinuxLog (-1) 0 800 900) ⟨0, 0⟩ []
      (by decide)).2.2.2.1 (by decide),
    (tyche_register_outcomes exConsts (exLinuxLog (-1) 0 800 900) ⟨0, 0⟩ []
      (by decide)).2.2.2.2.2.2.2.2.2.2.1 (by decide)⟩

/-! ## No switch before the seal -/

/-- Counting a call does not touch the table. -/
theorem isSealed_next (w : Sessions) (h : Nat) : w.next.isSealed h = w.isSealed h := rfl

/-- Changing the binding of another handle does not touch the one of `h`. -/
theorem isSealed_set_of_ne (w : Sessions) (h h2 : Nat) (st : Option Lifecycle) (hh : h ≠ h2) :
    (w.set h2 st).isSealed h = w.isSealed h := by
  simp [Sessions.isSealed, Sessions.set, hh]

/-- The state a binding is set to decides whether it is sealed. -/
theorem isSealed_set_self (w : Sessions) (h : Nat) (st : Option Lifecycle) :
    (w.set h st).isSealed h =
      (st = some .Sealed ∨ st = some .Running ∨ st = some .Suspended : Bool) := by
  simp only [Sessions.isSealed, Sessions.set, if_true]
  rcases st with _ | st
  · simp
  · cases st <;> simp

/-- An unsealed handle is in none of the states that allow a switch. -/
theorem domain_of_not_sealed (w : Sessions) (h : Nat) (hw : w.isSealed h = false) :
    w.domain h ≠ some .Sealed ∧ w.domain h ≠ some .Suspended := by
  unfold Sessions.isSealed at hw
  constructor <;> intro hc <;> simp [hc] at hw

/-- Setting any handle to a state that is not sealed keeps an unsealed handle
unsealed. -/
theorem isSealed_set_unsealed (w : Sessions) (h h2 : Nat) (st : Option Lifecycle)
    (hw : w.isSealed h = false)
    (hst : st ≠ some .Sealed ∧ st ≠ some .Running ∧ st ≠ some .Suspended) :
    (w.set h2 st).isSealed h = false := by
  by_cases hh : h = h2
  · subst hh
    rw [isSealed_set_self]
    simp [hst.1, hst.2.1, hst.2.2]
  · rw [isSealed_set_of_ne w h h2 st hh]
    exact hw

/-- Opening a handle leaves an unsealed handle unsealed. -/
theorem tyche_open_keeps_unsealed (c : Consts) (env : Surroundings) (inode file : Nat)
    (w : Sessions) (h : Nat) (hw : w.isSealed h = false) :
    (tyche_open c (specKernel c env) inode file w).state.isSealed h = false := by
  simp only [tyche_open, specKernel]
  split_ifs <;>
    first
      | exact hw
      | exact isSealed_set_unsealed w h _ _ hw (by simp)

/-- Closing a handle leaves an unsealed handle unsealed. -/
theorem tyche_close_keeps_unsealed (c : Consts) (env : Surroundings) (inode handle : Nat)
    (w : Sessions) (h : Nat) (hw : w.isSealed h = false) :
    (tyche_close c (specKernel c env) inode handle w).state.isSealed h = false := by
  simp only [tyche_close, specKernel]
  split_ifs <;>
    first
      | exact hw
      | exact isSealed_set_unsealed w h _ _ hw (by simp)

/-- Mapping leaves the table alone. -/
theorem tyche_mmap_keeps_unsealed (c : Consts) (env : Surroundings) (file vma : Nat)
    (w : Sessions) (h : Nat) (hw : w.isSealed h = false) :
    (tyche_mmap (specKernel c env) file vma w).state.isSealed h = false := by
  simp only [tyche_mmap, specKernel]
  split_ifs <;> exact hw

/-- A device-control request leaves an unsealed handle unsealed unless it is a
commit on that handle that succeeds, and a transition on an unsealed handle does
not succeed. -/
theorem tyche_ioctl_keeps_unsealed (c : Consts) (env : Surroundings) (hd : c.labelsDistinct)
    (hne : c.SUCCESS ≠ c.FAILURE) (handle cmd arg : Nat) (w : Sessions) (h : Nat)
    (hw : w.isSealed h = false) :
    (handle = h → cmd = c.TYCHE_TRANSITION →
      (tyche_ioctl c (specKernel c env) handle cmd arg w).ret ≠ c.SUCCESS) ∧
    (¬ (handle = h ∧ cmd = c.TYCHE_ENCLAVE_COMMIT ∧
        (tyche_ioctl c (specKernel c env) handle cmd arg w).ret = c.SUCCESS) →
      (tyche_ioctl c (specKernel c env) handle cmd arg w).state.isSealed h = false) := by
  obtain ⟨⟨h12, h13, h14⟩, ⟨h23, h24⟩, h34⟩ := (labelsDistinct_iff c).1 hd
  obtain ⟨hs1, hs2⟩ := domain_of_not_sealed w h hw
  have hnext : ∀ x, w.next.domain x = w.domain x := fun _ => rfl
  constructor
  · intro hh hc
    subst hh hc
    simp only [tyche_ioctl, specKernel, Ne.symm h14, Ne.symm h24, Ne.symm h34, if_false,
      hnext]
    split_ifs <;> simp_all [Ne.symm hne]
  · intro hex
    by_cases c1 : cmd = c.TYCHE_ENCLAVE_GET_PHYSOFFSET
    · subst c1
      simp only [tyche_ioctl, specKernel, if_true]
      split_ifs <;> exact hw
    · by_cases c2 : cmd = c.TYCHE_ENCLAVE_COMMIT
      · subst c2
        simp only [tyche_ioctl, specKernel, Ne.symm h12, if_false, if_true, hnext] at hex ⊢
        by_cases hh : handle = h
        · split_ifs at hex ⊢ <;>
            first
              | exact hw
              | simp_all
        · split_ifs <;>
            first
              | exact hw
              | exact (isSealed_set_of_ne w.next h handle _ (Ne.symm hh)).trans hw
      · by_cases c3 : cmd = c.TYCHE_ENCLAVE_MPROTECT
        · subst c3
          simp only [tyche_ioctl, specKernel, Ne.symm h13, Ne.symm h23, if_false, if_true]
          split_ifs <;>
            first
              | exact hw
              | exact isSealed_set_unsealed w.next h _ _ hw (by simp)
        · by_cases c4 : cmd = c.TYCHE_TRANSITION
          · subst c4
            simp only [tyche_ioctl, specKernel, Ne.symm h14, Ne.symm h24, Ne.symm h34,
              if_false, if_true, hnext]
            by_cases hh : handle = h
            · subst hh
              split_ifs <;>
                first
                  | exact hw
                  | simp_all
            · split_ifs <;>
                first
                  | exact hw
                  | exact (isSealed_set_of_ne w.next h handle _ (Ne.symm hh)).trans hw
          · simp only [tyche_ioctl, c1, c2, c3, c4, if_false]
            exact hw

/-- The same for any request of the operating system. -/
theorem exec_keeps_unsealed (c : Consts) (env : Surroundings) (hd : c.labelsDistinct)
    (hne : c.SUCCESS ≠ c.FAILURE) (r : Request) (w : Sessions) (h : Nat)
    (hw : w.isSealed h = false) :
    (∀ arg, r = .tyche_ioctl h c.TYCHE_TRANSITION arg →
      (r.exec c (specKernel c env) w).ret ≠ c.SUCCESS) ∧
    ((∀ arg, ¬ (r = .tyche_ioctl h c.TYCHE_ENCLAVE_COMMIT arg ∧
        (r.exec c (specKernel c env) w).ret = c.SUCCESS)) →
      (r.exec c (specKernel c env) w).state.isSealed h = false) := by
  cases r with
  | tyche_open inode file =>
    exact ⟨fun _ hr => (by cases hr), fun _ => tyche_open_keeps_unsealed c env inode file w h hw⟩
  | tyche_close inode handle =>
    exact ⟨fun _ hr => (by cases hr),
      fun _ => tyche_close_keeps_unsealed c env inode handle w h hw⟩
  | tyche_mmap file vma =>
    exact ⟨fun _ hr => (by cases hr), fun _ => tyche_mmap_keeps_unsealed c env file vma w h hw⟩
  | tyche_ioctl handle cmd arg =>
    have key := tyche_ioctl_keeps_unsealed c env hd hne handle cmd arg w h hw
    constructor
    · intro arg2 hr
      cases hr
      exact key.1 rfl rfl
    · intro hex
      apply key.2
      rintro ⟨hh, hc, hret⟩
      subst hh hc
      exact hex arg ⟨rfl, hret⟩

/-- In a run that starts with `h` unsealed, a transition on `h` that succeeds comes
after a commit on `h` that succeeded. -/
theorem commit_before_transition (c : Consts) (env : Surroundings) (hd : c.labelsDistinct)
    (hne : c.SUCCESS ≠ c.FAILURE) (h : Nat) (reqs : List Request) :
    ∀ (w : Sessions), w.isSealed h = false → ∀ (i arg : Nat),
      (runRequests c (specKernel c env) reqs w)[i]? =
        some (.tyche_ioctl h c.TYCHE_TRANSITION arg, c.SUCCESS) →
      ∃ j arg2, j < i ∧ (runRequests c (specKernel c env) reqs w)[j]? =
        some (.tyche_ioctl h c.TYCHE_ENCLAVE_COMMIT arg2, c.SUCCESS) := by
  induction reqs with
  | nil =>
    intro w _ i arg hi
    simp [runRequests] at hi
  | cons r rs ih =>
    intro w hw i arg hi
    obtain ⟨k1, k2⟩ := exec_keeps_unsealed c env hd hne r w h hw
    cases i with
    | zero =>
      simp only [runRequests, List.getElem?_cons_zero, Option.some.injEq, Prod.mk.injEq] at hi
      exact absurd hi.2 (k1 arg hi.1)
    | succ i =>
      simp only [runRequests, List.getElem?_cons_succ] at hi
      by_cases hex : ∃ arg2, r = .tyche_ioctl h c.TYCHE_ENCLAVE_COMMIT arg2 ∧
          (r.exec c (specKernel c env) w).ret = c.SUCCESS
      · obtain ⟨arg2, hr, hret⟩ := hex
        refine ⟨0, arg2, Nat.succ_pos i, ?_⟩
        simp [runRequests, hr, ← hret]
      · have hw2 := k2 (fun arg2 hc => hex ⟨arg2, hc⟩)
        obtain ⟨j, arg2, hj, hlog⟩ := ih _ hw2 i arg hi
        exact ⟨j + 1, arg2, Nat.succ_lt_succ hj, by simpa [runRequests] using hlog⟩

/-- A handle that was just opened is not sealed. -/
theorem tyche_open_fresh_unsealed (c : Consts) (env : Surroundings)
    (hne : c.SUCCESS ≠ c.FAILURE) (inode file : Nat) (w : Sessions)
    (hopen : (tyche_open c (specKernel c env) inode file w).ret = c.SUCCESS) :
    (tyche_open c (specKernel c env) inode file w).state.isSealed file = false := by
  simp only [tyche_open, specKernel] at hopen ⊢
  split_ifs at hopen ⊢ <;>
    first
      | exact absurd hopen (Ne.symm hne)
      | (rw [isSealed_set_self]; simp)
      | simp_all

/-- C12: on a handle that `tyche_open` has just opened, in every sequence of
requests to the driver that follows (device-control requests on this or any other
handle, opens, closes and mappings included), a `TYCHE_TRANSITION` request on the
handle that returns `SUCCESS` comes after a `TYCHE_ENCLAVE_COMMIT` request on the
same handle that returned `SUCCESS`: no switch succeeds before the seal. -/
theorem no_switch_before_seal (c : Consts) (env : Surroundings) (hd : c.labelsDistinct)
    (hne : c.SUCCESS ≠ c.FAILURE) (w0 : Sessions) (inode h : Nat)
    (hopen : (tyche_open c (specKernel c env) inode h w0).ret = c.SUCCESS)
    (reqs : List Request) (i arg : Nat)
    (hi : (runRequests c (specKernel c env) reqs
        (tyche_open c (specKernel c env) inode h w0).state)[i]? =
      some (.tyche_ioctl h c.TYCHE_TRANSITION arg, c.SUCCESS)) :
    ∃ j arg2, j < i ∧
      (runRequests c (specKernel c env) reqs
        (tyche_open c (specKernel c env) inode h w0).state)[j]? =
      some (.tyche_ioctl h c.TYCHE_ENCLAVE_COMMIT arg2, c.SUCCESS) :=
  commit_before_transition c env hd hne h reqs _
    (tyche_open_fresh_unsealed c env hne inode h w0 hopen) i arg hi

/-- C12 on the run mprotect, commit, transition of a freshly opened handle `7`, in
which the transition, third, succeeds. -/
theorem no_switch_before_seal_witness :
    exConsts.labelsDistinct ∧ exConsts.SUCCESS ≠ exConsts.FAILURE ∧
    (tyche_open exConsts (specKernel exConsts exSurroundings) 0 7 noSessions).ret =
      exConsts.SUCCESS ∧
    (runRequests exConsts (specKernel exConsts exSurroundings)
        [.tyche_ioctl 7 3 100, .tyche_ioctl 7 2 100, .tyche_ioctl 7 4 100]
        (tyche_open exConsts (specKernel exConsts exSurroundings) 0 7 noSessions).state)[2]? =
      some (.tyche_ioctl 7 exConsts.TYCHE_TRANSITION 100, exConsts.SUCCESS) ∧
    ∃ j arg2, j < 2 ∧
      (runRequests exConsts (specKernel exConsts exSurroundings)
        [.tyche_ioctl 7 3 100, .tyche_ioctl 7 2 100, .tyche_ioctl 7 4 100]
        (tyche_open exConsts (specKernel exConsts exSurroundings) 0 7 noSessions).state)[j]? =
      some (.tyche_ioctl 7 exConsts.TYCHE_ENCLAVE_COMMIT arg2, exConsts.SUCCESS) :=
  ⟨by decide, by decide, by decide, by decide,
    no_switch_before_seal exConsts exSurroundings (by decide) (by decide) noSessions 0 7
      (by decide) [.tyche_ioctl 7 3 100, .tyche_ioctl 7 2 100, .tyche_ioctl 7 4 100] 2 100
      (by decide)⟩

end Tyche
